import Mathlib

/-!
Verification of the Engagement Policy Engine of the companion-bot backend.

The definitions below are a shallow embedding, translated from the Python
sources under `backend/`:
  * `backend/services/boundary_manager.py`  (BoundaryDetector, BoundaryManager)
  * `backend/services/mood_detector.py`     (DistressDetector)
  * `backend/services/question_tracker.py`  (QuestionTracker)
  * `backend/handlers/message_handler.py`   (MessageHandler)
  * `backend/services/proactive_scheduler.py` (ProactiveScheduler.can_send)
  * `backend/constants.py`                  (limits, modifiers, fallback texts)

Modelling conventions:
  * Text is `String`; the character-level work is done on `String.data`
    (`List Char`).  Messages in scope are ASCII, where Python's `str.lower`
    / `str.strip` agree with `Char.toLower` / `Char.isWhitespace`.
  * The Python sources use `re.search` with patterns that are alternations
    of literals with optional pieces.  Each pattern is embedded as the
    finite list of its literal alternatives (in the engine's backtracking
    preference order where it matters); `re.search` succeeds iff some
    alternative occurs as a substring.  Patterns with a trailing greedy
    capture group `(.+)` are embedded by `searchCapture` /
    `searchNoMore` below, which reproduce leftmost-then-greedy matching
    (`.` does not match a newline).
  * The wall clock (`datetime.utcnow`) is threaded explicitly as a
    rational number of hours; float arithmetic on durations is idealised
    as `ℚ`.
  * The database is a per-run in-memory list of rows; SQL `UPDATE`/`INSERT`
    statements become list transformations, and unordered `SELECT`s scan
    in list order.
-/

/-- `c` counts as a regex word character (`\w`, ASCII fragment). -/
def isWordChar (c : Char) : Bool := c.isAlphanum || c = '_'

/-- Python `str.strip`: drop whitespace from both ends. -/
def pyStrip (s : List Char) : List Char :=
  ((s.dropWhile Char.isWhitespace).reverse.dropWhile Char.isWhitespace).reverse

/-- Python `str.lower`, ASCII fragment. -/
def pyLower (s : List Char) : List Char := s.map Char.toLower

/-- Python `pat in s`: substring containment. -/
def isSubstr (pat : List Char) : List Char → Bool
  | [] => pat.isEmpty
  | c :: t => pat.isPrefixOf (c :: t) || isSubstr pat t

/-- `message.lower().strip()`, the normalisation used by the detectors. -/
def lowerStrip (message : String) : List Char := pyStrip (pyLower message.data)

/-- Wordness of position `i` of `s` (out of range counts as non-word). -/
def wordAtPos (s : List Char) (i : Nat) : Bool :=
  match s.get? i with
  | some c => isWordChar c
  | none => false

/-- A regex `\b` word boundary sits at position `i` of `s`. -/
def boundaryAt (s : List Char) (i : Nat) : Bool :=
  (if i = 0 then false else wordAtPos s (i - 1)) != wordAtPos s i

/-- `re.search(r"\b<pat>\b", s)` matches at position `i` (for a literal `pat`). -/
def wbMatchAt (pat s : List Char) (i : Nat) : Bool :=
  pat.isPrefixOf (s.drop i) && boundaryAt s i && boundaryAt s (i + pat.length)

/-- `re.search(r"\b<pat>\b", s)` succeeds somewhere (for a literal `pat`). -/
def wbSearch (pat s : List Char) : Bool :=
  (List.range (s.length + 1)).any (wbMatchAt pat s)

/-- `re.search` for a pattern given as its list of literal alternatives. -/
def reSearchAlts (alts : List String) (s : List Char) : Bool :=
  alts.any (fun a => isSubstr a.data s)

/-- One search position of a `"<prefix alternatives>(.+)"` pattern: the first
alternative (in backtracking preference order) that is a prefix of `s` and is
followed by at least one non-newline character yields the greedy capture
(everything up to the next newline or the end). -/
def captureAt (prefixes : List String) (s : List Char) : Option (List Char) :=
  prefixes.findSome? (fun p =>
    if p.data.isPrefixOf s then
      let g := (s.drop p.data.length).takeWhile (· ≠ '\n')
      if g.isEmpty then none else some g
    else none)

/-- `re.search` for a `"<prefix alternatives>(.+)"` pattern: leftmost matching
position wins, the capture is greedy. -/
def searchCapture (prefixes : List String) : List Char → Option (List Char)
  | [] => none
  | c :: t =>
    match captureAt prefixes (c :: t) with
    | some g => some g
    | none => searchCapture prefixes t

/-- The three alternatives following the capture in
`r"no more (.+) (?:talk|questions|stuff)"` (with their mandatory space). -/
def noMoreSuffixAlts : List String := [" talk", " questions", " stuff"]

/-- One search position of `r"no more (.+) (?:talk|questions|stuff)"`: after
the literal `"no more "`, the greedy `(.+)` backtracks to the largest split
point `j ≥ 1` (inside the current newline-free run) after which one of the
suffix alternatives matches. -/
def noMoreCaptureAt (s : List Char) : Option (List Char) :=
  if ("no more ".data).isPrefixOf s then
    let rest := s.drop 8
    let run := rest.takeWhile (· ≠ '\n')
    (List.range (run.length + 1)).reverse.findSome? (fun j =>
      if 1 ≤ j ∧ noMoreSuffixAlts.any (fun a => a.data.isPrefixOf (rest.drop j)) then
        some (rest.take j)
      else none)
  else none

/-- `re.search(r"no more (.+) (?:talk|questions|stuff)", s)`, leftmost match. -/
def searchNoMore : List Char → Option (List Char)
  | [] => none
  | c :: t =>
    match noMoreCaptureAt (c :: t) with
    | some g => some g
    | none => searchNoMore t

/-! ## Data model (`models/models.py`, `models/sql_models.py`) -/

/-- `BoundaryType` (`models/models.py`). -/
inductive BoundaryType
  | topic
  | behavior
  | timing
  | frequency
deriving DecidableEq, Repr

/-- The string stored in the `boundary_type` column (`BoundaryType.value`). -/
def BoundaryType.toStr : BoundaryType → String
  | .topic => "topic"
  | .behavior => "behavior"
  | .timing => "timing"
  | .frequency => "frequency"

/-! ## BoundaryDetector (`services/boundary_manager.py`) -/

namespace BoundaryDetector

/-- `STOP_PATTERNS` entry: either a pattern of shape
`"<prefix alternatives>(.+)"`, or the special
`r"no more (.+) (?:talk|questions|stuff)"`. All stop patterns yield `Topic`. -/
inductive StopPat
  | suffixCap (prefixes : List String)
  | noMoreTalk

/-- `STOP_PATTERNS`, in source order.  Each regex is expanded into the list
of its literal prefix alternatives (optional groups expanded, the engine's
greedy preference first):
1. `stop asking (?:me )?about (.+)`
2. `stop (?:talking|mentioning|bringing up) (?:about )?(.+)`
3. `don'?t (?:ask|mention|talk|bring up) (?:about )?(.+)`
4. `i don'?t (?:want|wanna|need) to (?:talk|hear|discuss) about (.+)`
5. `let'?s not (?:talk|discuss) (?:about )?(.+)`
6. `can we not (?:talk|discuss) (?:about )?(.+)`
7. `enough (?:about|with) (?:the )?(.+)`
8. `no more (.+) (?:talk|questions|stuff)`
9. `please (?:stop|don'?t) (?:asking|talking) (?:about )?(.+)` -/
def STOP_PATTERNS : List StopPat :=
  [ .suffixCap ["stop asking me about ", "stop asking about "]
  , .suffixCap [ "stop talking about ", "stop talking "
               , "stop mentioning about ", "stop mentioning "
               , "stop bringing up about ", "stop bringing up " ]
  , .suffixCap [ "don\x27t ask about ", "don\x27t ask "
               , "don\x27t mention about ", "don\x27t mention "
               , "don\x27t talk about ", "don\x27t talk "
               , "don\x27t bring up about ", "don\x27t bring up "
               , "dont ask about ", "dont ask "
               , "dont mention about ", "dont mention "
               , "dont talk about ", "dont talk "
               , "dont bring up about ", "dont bring up " ]
  , .suffixCap [ "i don\x27t want to talk about ", "i don\x27t want to hear about "
               , "i don\x27t want to discuss about "
               , "i don\x27t wanna talk about ", "i don\x27t wanna hear about "
               , "i don\x27t wanna discuss about "
               , "i don\x27t need to talk about ", "i don\x27t need to hear about "
               , "i don\x27t need to discuss about "
               , "i dont want to talk about ", "i dont want to hear about "
               , "i dont want to discuss about "
               , "i dont wanna talk about ", "i dont wanna hear about "
               , "i dont wanna discuss about "
               , "i dont need to talk about ", "i dont need to hear about "
               , "i dont need to discuss about " ]
  , .suffixCap [ "let\x27s not talk about ", "let\x27s not talk "
               , "let\x27s not discuss about ", "let\x27s not discuss "
               , "lets not talk about ", "lets not talk "
               , "lets not discuss about ", "lets not discuss " ]
  , .suffixCap [ "can we not talk about ", "can we not talk "
               , "can we not discuss about ", "can we not discuss " ]
  , .suffixCap [ "enough about the ", "enough about "
               , "enough with the ", "enough with " ]
  , .noMoreTalk
  , .suffixCap [ "please stop asking about ", "please stop asking "
               , "please stop talking about ", "please stop talking "
               , "please don\x27t asking about ", "please don\x27t asking "
               , "please don\x27t talking about ", "please don\x27t talking "
               , "please dont asking about ", "please dont asking "
               , "please dont talking about ", "please dont talking " ] ]

/-- Run one stop pattern against the normalised message. -/
def runStopPat : StopPat → List Char → Option (List Char)
  | .suffixCap pres, m => searchCapture pres m
  | .noMoreTalk, m => searchNoMore m

/-- `SPACE_PATTERNS`, in source order, each regex expanded into literal
alternatives (`re.search` succeeds iff one is a substring):
`leave me alone` / `stop messaging me` / `stop texting me` /
`too many messages` / `give me (?:some )?space` / `back off` /
`i need (?:some )?(?:space|time|a break)` /
`chill (?:out )?(?:with the messages)?` / `not (?:right )?now` /
`go away` / `shut up`. -/
def SPACE_PATTERNS : List (List String × BoundaryType) :=
  [ (["leave me alone"], .behavior)
  , (["stop messaging me"], .behavior)
  , (["stop texting me"], .behavior)
  , (["too many messages"], .frequency)
  , (["give me some space", "give me space"], .behavior)
  , (["back off"], .behavior)
  , ([ "i need some space", "i need some time", "i need some a break"
     , "i need space", "i need time", "i need a break" ], .behavior)
  , ([ "chill out with the messages", "chill out "
     , "chill with the messages", "chill " ], .frequency)
  , (["not right now", "not now"], .behavior)
  , (["go away"], .behavior)
  , (["shut up"], .behavior) ]

/-- `TIMING_PATTERNS`, in source order, expanded into literal alternatives:
`no (?:more )?morning messages?` (the optional plural `s` is subsumed under
substring search) / `don'?t message me (?:in the )?morning` /
`no messages? (?:at|after|late at) night` / `don'?t (?:text|message) me (?:so )?late`. -/
def TIMING_PATTERNS : List (List String × String) :=
  [ (["no morning message", "no more morning message"], "no_morning_messages")
  , ([ "don\x27t message me in the morning", "don\x27t message me morning"
     , "dont message me in the morning", "dont message me morning" ], "no_morning_messages")
  , ([ "no message at night", "no messages at night"
     , "no message after night", "no messages after night"
     , "no message late at night", "no messages late at night" ], "no_late_messages")
  , ([ "don\x27t text me so late", "don\x27t text me late"
     , "don\x27t message me so late", "don\x27t message me late"
     , "dont text me so late", "dont text me late"
     , "dont message me so late", "dont message me late" ], "no_late_messages") ]

/-- `SPACE_RETRACTION_PATTERNS`, in source order, expanded into literal
alternatives.  For `(?:i'?m |im )?back` (and similar) the optional prefix is
subsumed under substring search by the bare core, so only distinct cores are
listed: a text containing `"i'm back"` also contains `"back"`.
1. `(?:i'?m |im )?back`  2. `(?:i'?m |im )?here`  3. `(?:i'?m |im )?ready`
4. `(?:okay |ok )?(?:i'?m |im )?(?:good|fine|better) now`
5. `(?:never ?mind|nvm)`  6. `(?:i'?m |im )?sorry`  7. `miss(?:ed)? you`
8. `hey again` -/
def SPACE_RETRACTION_PATTERNS : List (List String) :=
  [ ["back"]
  , ["here"]
  , ["ready"]
  , ["good now", "fine now", "better now"]
  , ["never mind", "nevermind", "nvm"]
  , ["sorry"]
  , ["miss you", "missed you"]
  , ["hey again"] ]

/-- The stop words rejected by `_clean_topic`. -/
def topicStopWords : List (List Char) :=
  ["it".data, "that".data, "this".data, "them".data, "thing".data]

/-- `re.sub(r"\s*<lit>$", "", s)`: drop a literal suffix together with the
whitespace run in front of it, if present. -/
def dropLitSuffix (lit : List Char) (s : List Char) : List Char :=
  let r := s.reverse
  if lit.reverse.isPrefixOf r then
    (((r.drop lit.length).dropWhile Char.isWhitespace)).reverse
  else s

/-- `re.sub(r"\s*<c>+$", "", s)`: drop a trailing run of `c` together with the
whitespace run in front of it, if present. -/
def dropRunSuffix (c : Char) (s : List Char) : List Char :=
  let r := s.reverse
  if r.head? = some c then
    (((r.dropWhile (· = c)).dropWhile Char.isWhitespace)).reverse
  else s

/-- `BoundaryDetector._clean_topic`: strip and lowercase, remove the suffixes
`\s*anymore$`, `\s*please$`, `\s*!+$`, `\s*\.+$` in that order, strip again,
and reject topics shorter than 2 characters or in the stop-word list.
(The source returns `""` for a rejected topic; callers test truthiness, which
is modelled by `Option`.) -/
def cleanTopic (topic : List Char) : Option (List Char) :=
  let t := pyLower (pyStrip topic)
  let t := dropLitSuffix "anymore".data t
  let t := dropLitSuffix "please".data t
  let t := dropRunSuffix '!' t
  let t := dropRunSuffix '.' t
  let t := pyStrip t
  if t.length < 2 ∨ t ∈ topicStopWords then none else some t

/-- `BoundaryDetector.detect_boundary`: timing preferences first, then
space/behavior requests, then topic-specific stops (a stop pattern whose
cleaned topic is rejected falls through to the next pattern). -/
def detect_boundary (message : String) : Option (BoundaryType × String) :=
  if message = "" then none
  else
    let m := lowerStrip message
    match TIMING_PATTERNS.findSome?
        (fun p => if reSearchAlts p.1 m then some p.2 else none) with
    | some v => some (.timing, v)
    | none =>
      match SPACE_PATTERNS.findSome?
          (fun p => if reSearchAlts p.1 m then some p.2 else none) with
      | some ty => some (ty, "reduce_messages")
      | none =>
        STOP_PATTERNS.findSome? (fun sp =>
          match runStopPat sp m with
          | some g => (cleanTopic g).map (fun t => (BoundaryType.topic, String.mk t))
          | none => none)

/-- `BoundaryDetector.detect_retraction`: `some "space"` iff one of the
retraction patterns matches the lowercased, stripped message. -/
def detect_retraction (message : String) : Option String :=
  if message = "" then none
  else
    let m := lowerStrip message
    if SPACE_RETRACTION_PATTERNS.any (fun alts => reSearchAlts alts m) then
      some "space"
    else none

/-- `BoundaryDetector.is_space_boundary`. -/
def is_space_boundary (ty : BoundaryType) : Bool :=
  ty = BoundaryType.behavior || ty = BoundaryType.frequency

end BoundaryDetector

/-! ## DistressDetector (`services/mood_detector.py`) -/

namespace DistressDetector

/-- `DISTRESS_PATTERNS`, in source order, expanded into literal alternatives
(suffix-optional groups such as `ok(ay)?` are subsumed by their stem under
substring search):
`i('m| am) (really )?not ok(ay)?` / `can'?t (do|take) this anymore` /
`want to (die|end it|disappear)` / `hurt(ing)? myself` / `no(body|one) cares` /
`what'?s the point` / `i('m| am) serious` / `this is real` /
`not (a )?jok(e|ing)` / `kill myself` / `suicide` / `self[- ]?harm` /
`don'?t want to (be here|live|exist)` / `end (my|it all)` -/
def DISTRESS_PATTERNS : List (List String) :=
  [ [ "i\x27m not ok", "i\x27m really not ok"
    , "i am not ok", "i am really not ok" ]
  , [ "can\x27t do this anymore", "can\x27t take this anymore"
    , "cant do this anymore", "cant take this anymore" ]
  , ["want to die", "want to end it", "want to disappear"]
  , ["hurt myself", "hurting myself"]
  , ["nobody cares", "noone cares"]
  , ["what\x27s the point", "whats the point"]
  , ["i\x27m serious", "i am serious"]
  , ["this is real"]
  , ["not a joke", "not a joking", "not joke", "not joking"]
  , ["kill myself"]
  , ["suicide"]
  , ["self-harm", "self harm", "selfharm"]
  , [ "don\x27t want to be here", "don\x27t want to live", "don\x27t want to exist"
    , "dont want to be here", "dont want to live", "dont want to exist" ]
  , ["end my", "end it all"] ]

/-- `DistressDetector.detect`: the message is lowercased (not stripped) and
checked against every distress pattern. -/
def detect (message : String) : Bool :=
  if message = "" then false
  else DISTRESS_PATTERNS.any (fun alts => reSearchAlts alts (pyLower message.data))

end DistressDetector

example : BoundaryDetector.detect_boundary "leave me alone" =
    some (BoundaryType.behavior, "reduce_messages") := by decide
example : BoundaryDetector.detect_boundary "too many messages" =
    some (BoundaryType.frequency, "reduce_messages") := by decide
example : BoundaryDetector.detect_boundary "please stop asking about my job" =
    some (BoundaryType.topic, "my job") := by decide
example : BoundaryDetector.detect_retraction "back off" = some "space" := by decide
example : BoundaryDetector.detect_retraction "my back hurts" = some "space" := by decide
example : BoundaryDetector.detect_retraction "hello" = none := by decide
example : DistressDetector.detect "i want to die" = true := by decide
example : DistressDetector.detect "hello there" = false := by decide
example : wbSearch "ex".data "next".data = false := by decide
example : wbSearch "ex".data "my ex is".data = true := by decide

/-! ## Boundary store (`models/sql_models.py`, table `UserBoundary`)

The `id` primary key is omitted: of the embedded operations only
`delete_boundary` (not modelled, not needed by any claim) addresses rows by
`id`.  Row insertion appends at the end of the list; unordered `SELECT`s scan
in list order. -/

/-- One row of the `UserBoundary` table. -/
structure UserBoundary where
  userId : String
  boundaryType : String
  boundaryValue : String
  active : Bool
  createdAt : ℚ
  userInitiatedAfter : Option ℚ
deriving DecidableEq, Repr

/-- The in-memory image of the `UserBoundary` table. -/
abbrev Store := List UserBoundary

/-! ## BoundaryManager (`services/boundary_manager.py`)

`datetime.utcnow()` is threaded explicitly as `now : ℚ` (hours). -/

namespace BoundaryManager

/-- The dict returned by `BoundaryManager.process_message` (its five keys). -/
structure BoundaryEvent where
  action : String
  type : String
  value : String
  isSpaceBoundary : Bool
  hint : String
deriving DecidableEq, Repr

/-- The row update of `_mark_user_initiated`: stamp
`user_initiated_after = now` if this is an active behavior/frequency
`reduce_messages` boundary of the user whose stamp is still unset. -/
def mark_row (now : ℚ) (uid : String) (b : UserBoundary) : UserBoundary :=
  if b.userId == uid &&
      (b.boundaryType == "behavior" || b.boundaryType == "frequency") &&
      b.boundaryValue == "reduce_messages" &&
      b.active && b.userInitiatedAfter.isNone then
    { b with userInitiatedAfter := some now }
  else b

/-- `BoundaryManager._mark_user_initiated`: apply `mark_row` to every row. -/
def mark_user_initiated (now : ℚ) (uid : String) (st : Store) : Store :=
  st.map (mark_row now uid)

/-- The row filter of `_deactivate_space_boundary`: an active
behavior/frequency boundary of the user (any value). -/
def deact_hit (uid : String) (b : UserBoundary) : Bool :=
  b.userId == uid &&
    (b.boundaryType == "behavior" || b.boundaryType == "frequency") && b.active

/-- The row update of `_deactivate_space_boundary`. -/
def deact_row (uid : String) (b : UserBoundary) : UserBoundary :=
  if deact_hit uid b then { b with active := false } else b

/-- `BoundaryManager._deactivate_space_boundary`: deactivate every active
behavior/frequency boundary of the user (any value); the returned flag is
`rowcount > 0`. -/
def deactivate_space_boundary (uid : String) (st : Store) : Store × Bool :=
  (st.map (deact_row uid), st.any (deact_hit uid))

/-- The row filter of the duplicate check: an active boundary with the given
`(user_id, boundary_type, boundary_value)`. -/
def key_pred (uid ty value : String) (b : UserBoundary) : Bool :=
  b.userId == uid && b.boundaryType == ty && b.boundaryValue == value && b.active

/-- The duplicate check shared by `process_message` and `create_boundary`:
an active boundary with the same `(user_id, boundary_type, boundary_value)`
already exists. -/
def duplicate_exists (uid ty value : String) (st : Store) : Bool :=
  st.any (key_pred uid ty value)

/-- The detection tail of `process_message`: run the detector and persist a
new, non-duplicate boundary. -/
def detect_and_save (now : ℚ) (uid : String) (message : String) (st : Store) :
    Store × Option BoundaryEvent :=
  match BoundaryDetector.detect_boundary message with
  | none => (st, none)
  | some (ty, value) =>
    if duplicate_exists uid ty.toStr value st then (st, none)
    else
      ( st ++ [{ userId := uid, boundaryType := ty.toStr, boundaryValue := value
               , active := true, createdAt := now, userInitiatedAfter := none }]
      , some { action := "boundary_set", type := ty.toStr, value := value
             , isSpaceBoundary := BoundaryDetector.is_space_boundary ty
             , hint := "[BOUNDARY_SET: " ++ ty.toStr ++ "=" ++ value ++ "]" } )

/-- `BoundaryManager.process_message`: stamp `user_initiated_after`, check
retraction (deactivating space boundaries on a hit), else run the detector
and persist a new non-duplicate boundary. -/
def process_message (now : ℚ) (uid : String) (message : String) (st : Store) :
    Store × Option BoundaryEvent :=
  let st1 := mark_user_initiated now uid st
  if BoundaryDetector.detect_retraction message = some "space" then
    let p := deactivate_space_boundary uid st1
    if p.2 then
      ( p.1
      , some { action := "boundary_retracted", type := "behavior", value := "space"
             , isSpaceBoundary := true, hint := "[BOUNDARY_RETRACTED: space]" } )
    else detect_and_save now uid message p.1
  else detect_and_save now uid message st1

/-- The row filter of the `check_space_allows_proactive` query: an active
behavior/frequency `reduce_messages` boundary of the user. -/
def is_space_row (uid : String) (b : UserBoundary) : Bool :=
  b.userId == uid &&
    (b.boundaryType == "behavior" || b.boundaryType == "frequency") &&
    b.boundaryValue == "reduce_messages" && b.active

/-- One step of the `ORDER BY created_at DESC LIMIT 1` scan: keep the row
with the larger `created_at` (ties broken to the earlier row, mirroring an
unspecified database order). -/
def pick_later (acc : Option UserBoundary) (b : UserBoundary) : Option UserBoundary :=
  match acc with
  | none => some b
  | some a => if b.createdAt > a.createdAt then some b else acc

/-- The `SELECT ... ORDER BY created_at DESC LIMIT 1` of
`check_space_allows_proactive`: the active behavior/frequency
`reduce_messages` boundary of the user with the largest `created_at`. -/
def latest_space_boundary (uid : String) (st : Store) : Option UserBoundary :=
  (st.filter (is_space_row uid)).foldl pick_later none

/-- `SPACE_BOUNDARY_COOLDOWN_HOURS` (`constants.py`). -/
def SPACE_BOUNDARY_COOLDOWN_HOURS : ℚ := 24

/-- The reason component of `check_space_allows_proactive`.  The source
returns strings; `hard_stop r` is formatted there as
`f"hard_stop_{remaining:.1f}h_remaining"` with `r` the remaining hours. -/
inductive SpaceReason
  | no_boundary
  | user_initiated
  | cooldown_expired
  | hard_stop (remainingHours : ℚ)
deriving DecidableEq, Repr

/-- `BoundaryManager.check_space_allows_proactive`: the 24-hour hard-stop
decision over the most recent active space boundary. -/
def check_space_allows_proactive (now : ℚ) (uid : String) (st : Store) :
    Bool × SpaceReason :=
  match latest_space_boundary uid st with
  | none => (true, .no_boundary)
  | some b =>
    match b.userInitiatedAfter with
    | some _ => (true, .user_initiated)
    | none =>
      let hoursSince := now - b.createdAt
      if hoursSince ≥ SPACE_BOUNDARY_COOLDOWN_HOURS then (true, .cooldown_expired)
      else (false, .hard_stop (SPACE_BOUNDARY_COOLDOWN_HOURS - hoursSince))

/-- The per-value match of `check_message_violates`: word-boundary search for
values of length ≤ 4, case-insensitive substring containment otherwise. -/
def value_matches (value : String) (messageLower : List Char) : Bool :=
  let bl := pyLower value.data
  if bl.length ≤ 4 then wbSearch bl messageLower
  else isSubstr bl messageLower

/-- The active `Topic` boundary values of a user, in table order. -/
def topic_values (uid : String) (st : Store) : List String :=
  (st.filter (fun b => b.userId == uid && b.active && b.boundaryType == "topic")).map
    (·.boundaryValue)

/-- `BoundaryManager.check_message_violates`: scan the active topic
boundaries and return the first matching value. -/
def check_message_violates (uid : String) (message : String) (st : Store) :
    Bool × Option String :=
  if message = "" then (false, none)
  else
    match (topic_values uid st).findSome? (fun v =>
        if value_matches v (pyLower message.data) then some v else none) with
    | some v => (true, some v)
    | none => (false, none)

/-- `BoundaryManager.get_timing_boundaries`. -/
def get_timing_boundaries (uid : String) (st : Store) : List String :=
  (st.filter (fun b =>
      b.userId == uid && b.boundaryType == "timing" && b.active)).map (·.boundaryValue)

/-- `BoundaryManager.create_boundary`: manual creation with the same
duplicate suppression (the exception branch of the source is unreachable in
the in-memory model). -/
def create_boundary (now : ℚ) (uid ty value : String) (st : Store) : Store × Bool :=
  if duplicate_exists uid ty value st then (st, false)
  else
    ( st ++ [{ userId := uid, boundaryType := ty, boundaryValue := value
             , active := true, createdAt := now, userInitiatedAfter := none }]
    , true )

end BoundaryManager

section BoundaryManagerChecks

example :
    (BoundaryManager.process_message 0 "u" "leave me alone" []).2 =
      some { action := "boundary_set", type := "behavior", value := "reduce_messages"
           , isSpaceBoundary := true
           , hint := "[BOUNDARY_SET: behavior=reduce_messages]" } := by decide

example :
    BoundaryManager.check_space_allows_proactive 1 "u"
      (BoundaryManager.process_message 0 "u" "leave me alone" []).1 =
    (false, .hard_stop 23) := by
  have hst : (BoundaryManager.process_message 0 "u" "leave me alone" []).1 =
      [{ userId := "u", boundaryType := "behavior", boundaryValue := "reduce_messages"
       , active := true, createdAt := 0, userInitiatedAfter := none }] := by decide
  have hlatest : BoundaryManager.latest_space_boundary "u"
      [{ userId := "u", boundaryType := "behavior", boundaryValue := "reduce_messages"
       , active := true, createdAt := 0, userInitiatedAfter := none }] =
      some { userId := "u", boundaryType := "behavior", boundaryValue := "reduce_messages"
           , active := true, createdAt := 0, userInitiatedAfter := none } := by decide
  rw [hst]
  rw [BoundaryManager.check_space_allows_proactive, hlatest]
  norm_num [BoundaryManager.SPACE_BOUNDARY_COOLDOWN_HOURS]

example :
    BoundaryManager.check_message_violates "u" "how is your job going" 
      [{ userId := "u", boundaryType := "topic", boundaryValue := "my job"
       , active := true, createdAt := 0, userInitiatedAfter := none }] =
    (false, none) := by decide

example :
    BoundaryManager.check_message_violates "u" "thinking about my job today"
      [{ userId := "u", boundaryType := "topic", boundaryValue := "my job"
       , active := true, createdAt := 0, userInitiatedAfter := none }] =
    (true, some "my job") := by decide

end BoundaryManagerChecks

/-! ## Conversation turns and QuestionTracker (`services/question_tracker.py`)

`question_topic` (display-only, consumed by no gate) is omitted from the row. -/

/-- One row of the `Message` table (the columns the engine reads). -/
structure MessageRec where
  userId : String
  role : String
  content : String
  isQuestion : Bool
  questionAnswered : Bool
deriving DecidableEq, Repr

namespace QuestionTracker

/-- `QUESTION_PATTERNS`, expanded into literal alternatives.  The first
pattern `(\?[^.!?]*$)` requires a `?` and is subsumed by the direct
`'?' in message` check that precedes the pattern loop in
`_contains_question`; the remaining three are plain alternations. -/
def QUESTION_PHRASE_ALTS : List String :=
  [ "what\x27s", "what is", "how do", "how to", "why do", "why does"
  , "where is", "when is"
  , "are you", "do you", "can you", "will you", "would you", "have you"
  , "right?", "correct?", "yes?", "no?" ]

/-- `QuestionTracker._contains_question`. -/
def contains_question (message : String) : Bool :=
  if message = "" then false
  else
    message.data.contains '?' ||
      reSearchAlts QUESTION_PHRASE_ALTS (pyLower message.data)

/-- `QuestionTracker.on_user_message`: mark every unanswered bot question of
the user as answered. -/
def on_user_message (uid : String) (msgs : List MessageRec) : List MessageRec :=
  msgs.map (fun m =>
    if m.userId == uid && m.role == "bot" && m.isQuestion && !m.questionAnswered then
      { m with questionAnswered := true }
    else m)

/-- `QuestionTracker.on_bot_message`, restricted to the row it updates (the
source addresses the freshly saved bot message by id): classify the message
and stamp `is_question` / `question_answered`. -/
def on_bot_message (content : String) (m : MessageRec) : MessageRec :=
  { m with isQuestion := contains_question content, questionAnswered := false }

/-- The pending-question test used by gate 3 of `ProactiveScheduler.can_send`
(and by `QuestionTracker.has_pending_questions`). -/
def has_pending_questions (uid : String) (msgs : List MessageRec) : Bool :=
  msgs.any (fun m =>
    m.userId == uid && m.role == "bot" && m.isQuestion && !m.questionAnswered)

end QuestionTracker

/-! ## Constants (`constants.py`) -/

/-- `FALLBACK_RESPONSES`. -/
def FALLBACK_RESPONSES : List String :=
  [ "hmm, lost my train of thought. what were you saying?"
  , "sorry, got distracted. tell me more?"
  , "my brain glitched. try again?"
  , "wait, say that again?"
  , "oops, I zoned out. one more time?" ]

/-- `MAX_MESSAGE_LENGTH`. -/
def MAX_MESSAGE_LENGTH : Nat := 4000

/-- `random.choice(FALLBACK_RESPONSES)`, with the random draw an explicit
input. -/
def chooseFallback (r : Nat) : String :=
  FALLBACK_RESPONSES.getD (r % FALLBACK_RESPONSES.length) ""

/-! ## MessageHandler (`handlers/message_handler.py`) -/

namespace MessageHandler

/-- `MessageHandler.MAX_REGENERATION_ATTEMPTS`. -/
def MAX_REGENERATION_ATTEMPTS : Nat := 2

/-- The generation context, restricted to the keys the engine itself writes
and the regeneration loop updates (`ContextBuilder.build` sets neither). -/
structure Context where
  systemHint : Option String
  distressDetected : Bool
deriving DecidableEq, Repr

/-- One `llm.generate` call either returns text (`""` models a falsy/empty
response) or raises (timeout / provider error). -/
inductive GenOutcome
  | ok (text : String)
  | exn

/-- The ambient nondeterminism of one handler run: the outcome of the `i`-th
`llm.generate` call, and the draw behind `random.choice`.  (In any fixed run
the context passed to call `i` is determined by the call index, so an oracle
indexed by call count loses no generality.) -/
structure GenEnv where
  oracle : Nat → GenOutcome
  rand : Nat

/-- The fallback markers scanned by `_generate_safe` (line 347). -/
def FALLBACK_MARKERS : List String :=
  [ "sorry", "oops", "lost my train", "brain glitched"
  , "zoned out", "try again", "say that again" ]

/-- The fallback test of `_generate_safe`: the response is one of the known
fallback texts, or its lowercase form contains a fallback marker. -/
def is_fallback (response : String) : Bool :=
  FALLBACK_RESPONSES.contains response ||
    FALLBACK_MARKERS.any (fun fb => isSubstr fb.data (pyLower response.data))

/-- `MessageHandler._is_valid_response`. -/
def is_valid_response (response : String) : Bool :=
  if response = "" || response.data.length < 2 then false
  else if response.data.length > 2000 then false
  else if response.data.count '[' > response.data.count ']' + 2 then false
  else true

/-- The corrective system hint injected on a boundary violation (line 374). -/
def violationHint (violated : String) : String :=
  "[CRITICAL BOUNDARY VIOLATION: You mentioned \x27" ++ violated ++
    "\x27. This violates the user\x27s boundary. " ++
    "Respond to them WITHOUT mentioning this topic/behavior. " ++
    "Stay in character but avoid this completely.]"

/-- The neutral topic-change line returned when regeneration attempts are
exhausted on a violation (line 384). -/
def topicChangeLine : String := "Anyway, what else is on your mind?"

/-- The body of `_generate_safe`'s `for attempt in range(MAX + 1)` loop.
`remaining = MAX_REGENERATION_ATTEMPTS + 1 - attempt` iterations are left;
`calls` counts the `llm.generate` calls made so far (so it is also the oracle
index of the next call).  The `llm.generate` call is the only fallible
operation in the loop body (the rest is pure), so `GenOutcome.exn` is raised
there; at the last attempt an exception, like loop exhaustion, degrades to a
random fallback phrase. -/
def generate_safe_loop (st : Store) (uid : String) (env : GenEnv) :
    Nat → Nat → Nat → Context → String × Nat
  | 0, _, calls, _ => (chooseFallback env.rand, calls)
  | r + 1, attempt, calls, ctx =>
    match env.oracle calls with
    | .exn =>
      if attempt == MAX_REGENERATION_ATTEMPTS then (chooseFallback env.rand, calls + 1)
      else generate_safe_loop st uid env r (attempt + 1) (calls + 1) ctx
    | .ok response =>
      if response = "" then generate_safe_loop st uid env r (attempt + 1) (calls + 1) ctx
      else if is_fallback response then (response, calls + 1)
      else if !is_valid_response response then
        generate_safe_loop st uid env r (attempt + 1) (calls + 1) ctx
      else
        let v := BoundaryManager.check_message_violates uid response st
        if v.1 then
          if attempt < MAX_REGENERATION_ATTEMPTS then
            generate_safe_loop st uid env r (attempt + 1) (calls + 1)
              { ctx with systemHint := some (violationHint (v.2.getD "")) }
          else (topicChangeLine, calls + 1)
        else (response, calls + 1)

/-- `MessageHandler._generate_safe`: the bounded regeneration loop, returning
the chosen response and the number of `llm.generate` calls made. -/
def generate_safe (st : Store) (uid : String) (ctx : Context) (env : GenEnv) :
    String × Nat :=
  generate_safe_loop st uid env (MAX_REGENERATION_ATTEMPTS + 1) 0 0 ctx

/-- `MessageHandler._sanitize`: drop NUL characters, strip, cap the length. -/
def sanitize (message : String) : String :=
  String.mk ((pyStrip (message.data.filter (· ≠ '\x00'))).take MAX_MESSAGE_LENGTH)

/-- The mutable rows a handler run touches (analytics counters, mood history
and greeting preferences are write-only side tables, not modelled). -/
structure PipelineState where
  boundaries : Store
  messages : List MessageRec
deriving DecidableEq, Repr

/-- The observables of one `_process` run: the response, the resulting rows,
the number of `llm.generate` calls, and (instrumentation for verification)
the context handed to `_generate_safe`. -/
structure ProcessOutcome where
  response : String
  state : PipelineState
  llmCalls : Nat
  ctxUsed : Context
deriving DecidableEq, Repr

/-- Python attribute access on the plain `dict` returned by
`BoundaryManager.process_message`.  `_process` evaluates
`boundary_result.type` (line 270) and `boundary_result.hint` (line 286), but
a `dict`'s keys are not attributes, so the access raises `AttributeError` —
modelled by `none`, never `some`. -/
def dictAttr (_ev : BoundaryManager.BoundaryEvent) (_attrName : String) :
    Option String := none

/-- The distress system hint (line 291). -/
def distressHint : String :=
  "[SAFETY: User may be in distress. Drop persona and be genuinely supportive.]"

/-- `MessageHandler._process`.  Steps that only write analytics/side tables
(activity stamps, daily counters, mood history, schedule analysis with no
analyzer configured, preference extraction — whose `llm.generate_response`
call names a method the LLM client does not define and whose error the
surrounding `try/except` swallows) do not touch the modelled rows.  An
`AttributeError` escaping `_process` carries the state committed before the
raise (the boundary write and the user-turn write are committed by then). -/
def process_core (now : ℚ) (env : GenEnv) (uid : String) (messageText : String)
    (st0 : PipelineState) : Except PipelineState ProcessOutcome :=
  let isDistressed := DistressDetector.detect messageText
  let st1 : PipelineState :=
    { st0 with messages := st0.messages ++
        [{ userId := uid, role := "user", content := messageText
         , isQuestion := false, questionAnswered := false }] }
  let pm := BoundaryManager.process_message now uid messageText st1.boundaries
  let st2 := { st1 with boundaries := pm.1 }
  let finish : Option String → Except PipelineState ProcessOutcome := fun bHint =>
    let st3 := { st2 with messages := QuestionTracker.on_user_message uid st2.messages }
    let ctx0 : Context := { systemHint := bHint, distressDetected := false }
    let ctx1 := if isDistressed then
        { ctx0 with distressDetected := true, systemHint := some distressHint }
      else ctx0
    let g := generate_safe st3.boundaries uid ctx1 env
    let botMsg := QuestionTracker.on_bot_message g.1
      { userId := uid, role := "bot", content := g.1
      , isQuestion := false, questionAnswered := false }
    Except.ok { response := g.1
              , state := { st3 with messages := st3.messages ++ [botMsg] }
              , llmCalls := g.2
              , ctxUsed := ctx1 }
  match pm.2 with
  | some ev =>
    -- analytics.boundary_set(user_id, boundary_result.type, boundary_result.value)
    match dictAttr ev "type" with
    | none => .error st2
    | some _ =>
      -- context["system_hint"] = boundary_result.hint (would raise as well)
      match dictAttr ev "hint" with
      | none => .error st2
      | some h => finish (some h)
  | none => finish none

/-- `MessageHandler.handle`: sanitize, run `_process`, and degrade any
escaping exception to a random fallback phrase. -/
def handle (now : ℚ) (env : GenEnv) (uid : String) (messageText : String)
    (st : PipelineState) : Option String × PipelineState × Nat :=
  let m := sanitize messageText
  if m = "" then (none, st, 0)
  else
    match process_core now env uid m st with
    | .ok out => (some out.response, out.state, out.llmCalls)
    | .error stE => (some (chooseFallback env.rand), stE, 0)

end MessageHandler

section MessageHandlerChecks

/-- A well-behaved generation outcome for concrete runs. -/
def okText : MessageHandler.GenOutcome :=
  .ok "thanks for telling me. want to talk about it?"

example :
    (MessageHandler.handle 0 { oracle := fun _ => okText, rand := 0 } "u"
      "i want to die" { boundaries := [], messages := [] }).1 =
    some "thanks for telling me. want to talk about it?" := by decide

example :
    (MessageHandler.handle 0 { oracle := fun _ => okText, rand := 0 } "u"
      "leave me alone" { boundaries := [], messages := [] }).1 =
    some (chooseFallback 0) := by decide

example :
    (MessageHandler.generate_safe
      [{ userId := "u", boundaryType := "topic", boundaryValue := "sorry"
       , active := true, createdAt := 0, userInitiatedAfter := none }]
      "u" { systemHint := none, distressDetected := false }
      { oracle := fun _ => .ok "sorry, that was out of line", rand := 0 }).1 =
    "sorry, that was out of line" := by decide

end MessageHandlerChecks

/-! ## Proactive constants (`constants.py`) -/

/-- One entry of `ATTACHMENT_MODIFIERS` (`message_hint`, consumed only by
generation, is omitted). -/
structure AttachmentModifier where
  dailyMax : Nat
  cooldownHours : ℚ
  skipProbability : ℚ
deriving DecidableEq, Repr

/-- `ATTACHMENT_MODIFIERS`. -/
def ATTACHMENT_MODIFIERS : List (String × AttachmentModifier) :=
  [ ("secure", { dailyMax := 3, cooldownHours := 2, skipProbability := 0 })
  , ("anxious", { dailyMax := 3, cooldownHours := 2, skipProbability := 0 })
  , ("avoidant", { dailyMax := 1, cooldownHours := 4, skipProbability := 1 / 2 }) ]

/-- `ATTACHMENT_MODIFIERS.get(attachment, ATTACHMENT_MODIFIERS['secure'])`. -/
def attachmentModifier (style : String) : AttachmentModifier :=
  (ATTACHMENT_MODIFIERS.lookup style).getD
    { dailyMax := 3, cooldownHours := 2, skipProbability := 0 }

/-- `PROACTIVE_LIMITS`. -/
def PROACTIVE_LIMITS : List (String × Nat) :=
  [("free", 1), ("plus", 3), ("premium", 5)]

/-- `PROACTIVE_LIMITS.get(tier, 1)`. -/
def proactiveLimit (tier : String) : Nat :=
  (PROACTIVE_LIMITS.lookup tier).getD 1

/-- `LATE_NIGHT_START_HOUR`. -/
def LATE_NIGHT_START_HOUR : Nat := 22

/-- `LATE_NIGHT_END_HOUR`. -/
def LATE_NIGHT_END_HOUR : Nat := 6

/-- `FEATURE_FLAGS` (the two flags `can_send` reads). -/
structure FeatureFlags where
  proactiveEnabled : Bool
  toxicExEnabled : Bool
deriving DecidableEq, Repr

/-! ## ProactiveScheduler (`services/proactive_scheduler.py`) -/

namespace ProactiveScheduler

/-- `BlockReason` (`models/models.py`). -/
inductive BlockReason
  | cooldown_not_met
  | daily_limit_reached
  | pending_questions
  | space_boundary_hard_stop
  | late_night
  | timing_boundary
  | attachment_skipped
  | llm_error
  | llm_no_send
  | empty_response
  | boundary_violation
deriving DecidableEq, Repr

/-- The `details` string of `can_send`, kept structured.  The source formats:
`"proactive_disabled"`, `"user_not_found"`, `"toxic_ex_disabled"`,
`f"{hours_since:.1f}h < {cooldown_hours}h"`,
`f"{proactive_count_today}/{daily_max}"`, `"unanswered_questions"`, the
space reason string of `check_space_allows_proactive`, `f"hour={hour}"`,
the matched timing value, and `f"skipped_{attachment}"`. -/
inductive CanSendDetail
  | proactive_disabled
  | user_not_found
  | toxic_ex_disabled
  | cooldown (hoursSince cooldownHours : ℚ)
  | daily_limit (count cap : Nat)
  | unanswered_questions
  | space (reason : BoundaryManager.SpaceReason)
  | late_night_hour (hour : Nat)
  | timing_value (value : String)
  | skipped (attachment : String)
deriving DecidableEq, Repr

/-- One row of the `User` table as read by `can_send` (`timezone` is consumed
only through the precomputed local hour). -/
structure UserRow where
  tier : Option String
  proactiveCountToday : Nat
deriving DecidableEq, Repr

/-- The preferred `BotSettings` row of the user (primary bot first). -/
structure BotSettingsRow where
  attachmentStyle : String
  archetype : String
deriving DecidableEq, Repr

/-- Everything one `can_send` evaluation reads: the feature flags, the user
and settings rows, the most recent `ProactiveLog.sent_at`, the clock, the
user's current local hour (`datetime.now(user_tz).hour`), the
`random.random()` draw, and the boundary/message tables. -/
structure SchedulerEnv where
  flags : FeatureFlags
  uid : String
  user : Option UserRow
  settings : Option BotSettingsRow
  lastProactiveAt : Option ℚ
  now : ℚ
  localHour : Nat
  rand : ℚ
  boundaries : Store
  messages : List MessageRec
deriving DecidableEq

/-- `settings.attachment_style if settings else 'secure'`. -/
def attachmentOf (env : SchedulerEnv) : String :=
  match env.settings with
  | some s => s.attachmentStyle
  | none => "secure"

/-- `settings.archetype if settings else 'golden_retriever'`. -/
def archetypeOf (env : SchedulerEnv) : String :=
  match env.settings with
  | some s => s.archetype
  | none => "golden_retriever"

/-- The modifier row `can_send` works with. -/
def modifierOf (env : SchedulerEnv) : AttachmentModifier :=
  attachmentModifier (attachmentOf env)

/-- `user.tier or 'free'` (Python truthiness: `None` and `""` fall back). -/
def tierOf (u : UserRow) : String :=
  match u.tier with
  | none => "free"
  | some t => if t = "" then "free" else t

/-- `ProactiveScheduler.can_send`, translated clause by clause: the kill
switches and user lookup, then gates 1–7, each an early return. -/
def can_send (env : SchedulerEnv) :
    Bool × Option BlockReason × Option CanSendDetail :=
  if !env.flags.proactiveEnabled then
    (false, some .llm_error, some .proactive_disabled)
  else
    match env.user with
    | none => (false, some .llm_error, some .user_not_found)
    | some user =>
      if archetypeOf env == "toxic_ex" && !env.flags.toxicExEnabled then
        (false, some .llm_error, some .toxic_ex_disabled)
      else
        let m := modifierOf env
        -- GATE 1: COOLDOWN (attachment-based)
        match env.lastProactiveAt with
        | some last =>
          if env.now - last < m.cooldownHours then
            (false, some .cooldown_not_met, some (.cooldown (env.now - last) m.cooldownHours))
          else can_send_from_daily env user
        | none => can_send_from_daily env user
where
  /-- Gates 2–7 of `can_send` (reached once the cooldown gate passed). -/
  can_send_from_daily (env : SchedulerEnv) (user : UserRow) :
      Bool × Option BlockReason × Option CanSendDetail :=
    let m := modifierOf env
    -- GATE 2: DAILY LIMIT (attachment + tier)
    let daily_max := min (proactiveLimit (tierOf user)) m.dailyMax
    if user.proactiveCountToday ≥ daily_max then
      (false, some .daily_limit_reached, some (.daily_limit user.proactiveCountToday daily_max))
    -- GATE 3: PENDING QUESTIONS
    else if QuestionTracker.has_pending_questions env.uid env.messages then
      (false, some .pending_questions, some .unanswered_questions)
    else
      -- GATE 4: SPACE BOUNDARY (24-hour hard stop)
      let space := BoundaryManager.check_space_allows_proactive env.now env.uid env.boundaries
      if !space.1 then
        (false, some .space_boundary_hard_stop, some (.space space.2))
      -- GATE 5: TIME OF DAY
      else if env.localHour ≥ LATE_NIGHT_START_HOUR || env.localHour < LATE_NIGHT_END_HOUR then
        (false, some .late_night, some (.late_night_hour env.localHour))
      else
        -- GATE 6: TIMING BOUNDARIES
        let tb := BoundaryManager.get_timing_boundaries env.uid env.boundaries
        if tb.contains "no_morning_messages" && (decide (6 ≤ env.localHour) && decide (env.localHour < 12)) then
          (false, some .timing_boundary, some (.timing_value "no_morning_messages"))
        else if tb.contains "no_late_messages" && decide (env.localHour ≥ 20) then
          (false, some .timing_boundary, some (.timing_value "no_late_messages"))
        -- GATE 7: ATTACHMENT PROBABILITY
        else if m.skipProbability > 0 ∧ env.rand < m.skipProbability then
          (false, some .attachment_skipped, some (.skipped (attachmentOf env)))
        else
          (true, none, none)

end ProactiveScheduler

section ProactiveSchedulerChecks

/-- An environment in which every gate passes. -/
def openEnv : ProactiveScheduler.SchedulerEnv :=
  { flags := { proactiveEnabled := true, toxicExEnabled := true }
  , uid := "u"
  , user := some { tier := some "free", proactiveCountToday := 0 }
  , settings := some { attachmentStyle := "secure", archetype := "golden_retriever" }
  , lastProactiveAt := none
  , now := 100
  , localHour := 14
  , rand := 0
  , boundaries := []
  , messages := [] }

example : ProactiveScheduler.can_send openEnv = (true, none, none) := by decide

example :
    ProactiveScheduler.can_send
      { openEnv with user := some { tier := some "free", proactiveCountToday := 1 } } =
    (false, some .daily_limit_reached, some (.daily_limit 1 1)) := by decide

example :
    ProactiveScheduler.can_send { openEnv with localHour := 23 } =
    (false, some .late_night, some (.late_night_hour 23)) := by decide

end ProactiveSchedulerChecks

/-- `SUPPORT_RESPONSE` (`constants.py`): the fixed, persona-free support
text, returned by the explicit `/support` command handler
(`command_handler.py`, `_handle_support`). -/
def SUPPORT_RESPONSE : String :=
  "Hey — stepping out of character completely here.\n\n" ++
  "If you\x27re going through something difficult, I\x27m here to listen without any act.\n\n" ++
  "If you\x27re in crisis:\n" ++
  "• 988 Suicide & Crisis Lifeline (US)\n" ++
  "• Crisis Text Line: Text HOME to 741741\n" ++
  "• International: findahelpline.com\n\n" ++
  "Want to talk for real? I\x27m listening. 💙"

namespace ProactiveScheduler

/-! The seven gates of `can_send` as standalone checks (`none` = pass), used
to state the short-circuit property.  Each reproduces the corresponding
early-return block of `can_send`. -/

/-- Kill-switch gate: the `proactive_enabled` flag, the user lookup, and the
`toxic_ex_enabled` flag. -/
def gate_kill_switch (env : SchedulerEnv) : Option (BlockReason × CanSendDetail) :=
  if !env.flags.proactiveEnabled then some (.llm_error, .proactive_disabled)
  else
    match env.user with
    | none => some (.llm_error, .user_not_found)
    | some _ =>
      if archetypeOf env == "toxic_ex" && !env.flags.toxicExEnabled then
        some (.llm_error, .toxic_ex_disabled)
      else none

/-- Gate 1: cooldown. -/
def gate_cooldown (env : SchedulerEnv) : Option (BlockReason × CanSendDetail) :=
  match env.lastProactiveAt with
  | none => none
  | some last =>
    if env.now - last < (modifierOf env).cooldownHours then
      some (.cooldown_not_met, .cooldown (env.now - last) (modifierOf env).cooldownHours)
    else none

/-- Gate 2: daily limit (evaluated for the looked-up user row). -/
def gate_daily_limit (env : SchedulerEnv) : Option (BlockReason × CanSendDetail) :=
  match env.user with
  | none => none
  | some user =>
    let daily_max := min (proactiveLimit (tierOf user)) (modifierOf env).dailyMax
    if user.proactiveCountToday ≥ daily_max then
      some (.daily_limit_reached, .daily_limit user.proactiveCountToday daily_max)
    else none

/-- Gate 3: pending questions. -/
def gate_pending_questions (env : SchedulerEnv) : Option (BlockReason × CanSendDetail) :=
  if QuestionTracker.has_pending_questions env.uid env.messages then
    some (.pending_questions, .unanswered_questions)
  else none

/-- Gate 4: space boundary hard stop. -/
def gate_space_boundary (env : SchedulerEnv) : Option (BlockReason × CanSendDetail) :=
  let space := BoundaryManager.check_space_allows_proactive env.now env.uid env.boundaries
  if !space.1 then some (.space_boundary_hard_stop, .space space.2) else none

/-- Gate 5: time of day. -/
def gate_time_of_day (env : SchedulerEnv) : Option (BlockReason × CanSendDetail) :=
  if env.localHour ≥ LATE_NIGHT_START_HOUR || env.localHour < LATE_NIGHT_END_HOUR then
    some (.late_night, .late_night_hour env.localHour)
  else none

/-- Gate 6: timing boundaries. -/
def gate_timing_boundaries (env : SchedulerEnv) : Option (BlockReason × CanSendDetail) :=
  let tb := BoundaryManager.get_timing_boundaries env.uid env.boundaries
  if tb.contains "no_morning_messages" && (decide (6 ≤ env.localHour) && decide (env.localHour < 12)) then
    some (.timing_boundary, .timing_value "no_morning_messages")
  else if tb.contains "no_late_messages" && decide (env.localHour ≥ 20) then
    some (.timing_boundary, .timing_value "no_late_messages")
  else none

/-- Gate 7: attachment skip probability — the only gate reading `env.rand`. -/
def gate_attachment_skip (env : SchedulerEnv) : Option (BlockReason × CanSendDetail) :=
  if (modifierOf env).skipProbability > 0 ∧ env.rand < (modifierOf env).skipProbability then
    some (.attachment_skipped, .skipped (attachmentOf env))
  else none

/-- The gate checks in evaluation order (gates 6 and 7 are the two halves of
the spec's final timing-boundaries/attachment-skip gate). -/
def gate_results (env : SchedulerEnv) : List (Option (BlockReason × CanSendDetail)) :=
  [ gate_kill_switch env, gate_cooldown env, gate_daily_limit env
  , gate_pending_questions env, gate_space_boundary env, gate_time_of_day env
  , gate_timing_boundaries env, gate_attachment_skip env ]

end ProactiveScheduler

namespace ProactiveScheduler

/-- `can_send` is exactly the ordered, short-circuiting evaluation of the
gate checks: the first failing gate (in list order) determines the block
reason and detail; if none fails the send is allowed. -/
theorem can_send_eq_first_fail (env : SchedulerEnv) :
    can_send env =
      match (gate_results env).findSome? id with
      | some rd => (false, some rd.1, some rd.2)
      | none => (true, none, none) := by
  cases hpe : env.flags.proactiveEnabled with
  | false => simp [can_send, gate_results, gate_kill_switch, hpe, List.findSome?_cons]
  | true =>
    cases henv : env.user with
    | none => simp [can_send, gate_results, gate_kill_switch, hpe, henv, List.findSome?_cons]
    | some user =>
      cases htx : (archetypeOf env == "toxic_ex" && !env.flags.toxicExEnabled) with
      | true => simp [can_send, gate_results, gate_kill_switch, hpe, henv, htx, List.findSome?_cons]
      | false =>
        have hks : gate_kill_switch env = none := by
          simp [gate_kill_switch, hpe, henv, htx]
        cases hlast : env.lastProactiveAt with
        | some last =>
          by_cases hcd : env.now - last < (modifierOf env).cooldownHours
          · simp [can_send, gate_results, gate_kill_switch, gate_cooldown, hpe, henv, htx,
              hlast, hcd, List.findSome?_cons]
          · have hgc : gate_cooldown env = none := by simp [gate_cooldown, hlast, hcd]
            have hrw : (gate_results env).findSome? id =
                ([gate_daily_limit env, gate_pending_questions env, gate_space_boundary env,
                  gate_time_of_day env, gate_timing_boundaries env,
                  gate_attachment_skip env] : List _).findSome? id := by
              simp [gate_results, hks, hgc, List.findSome?_cons]
            have hcs : can_send env = can_send.can_send_from_daily env user := by
              simp [can_send, hpe, henv, htx, hlast, hcd]
            rw [hrw, hcs]
            exact can_send_tail_eq env user henv
        | none =>
          have hgc : gate_cooldown env = none := by simp [gate_cooldown, hlast]
          have hrw : (gate_results env).findSome? id =
              ([gate_daily_limit env, gate_pending_questions env, gate_space_boundary env,
                gate_time_of_day env, gate_timing_boundaries env,
                gate_attachment_skip env] : List _).findSome? id := by
            simp [gate_results, hks, hgc, List.findSome?_cons]
          have hcs : can_send env = can_send.can_send_from_daily env user := by
            simp [can_send, hpe, henv, htx, hlast]
          rw [hrw, hcs]
          exact can_send_tail_eq env user henv
where
  can_send_tail_eq (env : SchedulerEnv) (user : UserRow) (henv : env.user = some user) :
      can_send.can_send_from_daily env user =
        match ([gate_daily_limit env, gate_pending_questions env, gate_space_boundary env,
                gate_time_of_day env, gate_timing_boundaries env,
                gate_attachment_skip env] : List _).findSome? id with
        | some rd => (false, some rd.1, some rd.2)
        | none => (true, none, none) := by
    by_cases hdm : user.proactiveCountToday ≥ proactiveLimit (tierOf user) ⊓ (modifierOf env).dailyMax
    · simp [can_send.can_send_from_daily, gate_daily_limit, henv, hdm, List.findSome?_cons]
    · cases hpq : QuestionTracker.has_pending_questions env.uid env.messages with
      | true =>
        simp [can_send.can_send_from_daily, gate_daily_limit, gate_pending_questions,
          henv, hdm, hpq, List.findSome?_cons]
      | false =>
        cases hsp : (BoundaryManager.check_space_allows_proactive env.now env.uid env.boundaries).1 with
        | false =>
          simp [can_send.can_send_from_daily, gate_daily_limit, gate_pending_questions,
            gate_space_boundary, henv, hdm, hpq, hsp, List.findSome?_cons]
        | true =>
          cases hln : (decide (env.localHour ≥ LATE_NIGHT_START_HOUR) ||
              decide (env.localHour < LATE_NIGHT_END_HOUR)) with
          | true =>
            simp only [can_send.can_send_from_daily, gate_daily_limit, gate_pending_questions,
              gate_space_boundary, gate_time_of_day, henv, hdm, hpq, hsp, hln,
              List.findSome?_cons]
            simp [hdm, hpq, hsp, hln]
          | false =>
            cases hm : ((BoundaryManager.get_timing_boundaries env.uid env.boundaries).contains
                "no_morning_messages" && (decide (6 ≤ env.localHour) && decide (env.localHour < 12))) with
            | true =>
              simp only [can_send.can_send_from_daily, gate_daily_limit, gate_pending_questions,
                gate_space_boundary, gate_time_of_day, gate_timing_boundaries, henv, hdm, hpq,
                hsp, hln, hm, List.findSome?_cons]
              simp [hdm, hpq, hsp, hln, hm]
            | false =>
              cases hl : ((BoundaryManager.get_timing_boundaries env.uid env.boundaries).contains
                  "no_late_messages" && decide (env.localHour ≥ 20)) with
              | true =>
                simp only [can_send.can_send_from_daily, gate_daily_limit, gate_pending_questions,
                  gate_space_boundary, gate_time_of_day, gate_timing_boundaries, henv, hdm, hpq,
                  hsp, hln, hm, hl, List.findSome?_cons]
                simp [hdm, hpq, hsp, hln, hm, hl]
              | false =>
                by_cases hsk : (modifierOf env).skipProbability > 0 ∧
                    env.rand < (modifierOf env).skipProbability
                all_goals simp at hm hl hln
                all_goals
                  have h5 : ¬(LATE_NIGHT_START_HOUR ≤ env.localHour ∨
                      env.localHour < LATE_NIGHT_END_HOUR) := by omega
                all_goals
                  have h6 : ¬("no_morning_messages" ∈
                      BoundaryManager.get_timing_boundaries env.uid env.boundaries ∧
                      6 ≤ env.localHour ∧ env.localHour < 12) := by
                    rintro ⟨a, b, c⟩
                    exact absurd (hm a b) (by omega)
                all_goals
                  have h7 : ¬("no_late_messages" ∈
                      BoundaryManager.get_timing_boundaries env.uid env.boundaries ∧
                      20 ≤ env.localHour) := by
                    rintro ⟨a, b⟩
                    exact absurd (hl a) (by omega)
                · simp [can_send.can_send_from_daily, gate_daily_limit, gate_pending_questions,
                    gate_space_boundary, gate_time_of_day, gate_timing_boundaries,
                    gate_attachment_skip, henv, hdm, hpq, hsp, h5, h6, h7, hsk,
                    List.findSome?_cons]
                · simp [can_send.can_send_from_daily, gate_daily_limit, gate_pending_questions,
                    gate_space_boundary, gate_time_of_day, gate_timing_boundaries,
                    gate_attachment_skip, henv, hdm, hpq, hsp, h5, h6, h7, hsk,
                    List.findSome?_cons]

end ProactiveScheduler

/-- `l.findSome? id = none` forces every entry to be `none`. -/
theorem findSome?_id_eq_none {α : Type _} {l : List (Option α)}
    (h : l.findSome? id = none) : ∀ o ∈ l, o = none := by
  induction l with
  | nil => simp
  | cons a t ih =>
    rw [List.findSome?_cons] at h
    intro o ho
    cases ha : a with
    | some b => rw [ha] at h; exact absurd h (by simp)
    | none =>
      rw [ha] at h
      rcases List.mem_cons.mp ho with h1 | h1
      · rw [h1, ha]
      · exact ih h o h1

/-- `l.findSome? id = some b` exhibits `some b` as an entry. -/
theorem findSome?_id_mem {α : Type _} {l : List (Option α)} {b : α}
    (h : l.findSome? id = some b) : some b ∈ l := by
  induction l with
  | nil => simp at h
  | cons a t ih =>
    rw [List.findSome?_cons] at h
    cases ha : a with
    | some c =>
      rw [ha] at h
      simp only [id_eq] at h
      rw [h]
      exact List.mem_cons_self _ _
    | none =>
      rw [ha] at h
      exact List.mem_cons_of_mem _ (ih h)

namespace ProactiveScheduler

/-- The seven deterministic gate checks, in order (everything before the
probabilistic attachment skip). -/
def deterministic_gates (env : SchedulerEnv) : List (Option (BlockReason × CanSendDetail)) :=
  [ gate_kill_switch env, gate_cooldown env, gate_daily_limit env
  , gate_pending_questions env, gate_space_boundary env, gate_time_of_day env
  , gate_timing_boundaries env ]

/-- The gate list splits into the deterministic gates and the final skip. -/
theorem gate_results_eq_det_append (env : SchedulerEnv) :
    gate_results env = deterministic_gates env ++ [gate_attachment_skip env] := rfl

/-- The random draw is read by no deterministic gate. -/
theorem deterministic_gates_rand (env : SchedulerEnv) (r' : ℚ) :
    deterministic_gates { env with rand := r' } = deterministic_gates env := rfl

/-- The attachment-skip gate, when it fires, always reports
`attachment_skipped`. -/
theorem gate_attachment_skip_reason (env : SchedulerEnv) (rd : BlockReason × CanSendDetail)
    (h : gate_attachment_skip env = some rd) :
    rd = (.attachment_skipped, .skipped (attachmentOf env)) := by
  unfold gate_attachment_skip at h
  split at h
  · exact (Option.some_inj.mp h).symm
  · simp at h

/-- No deterministic gate ever reports `attachment_skipped`. -/
theorem deterministic_gates_not_skip (env : SchedulerEnv) :
    ∀ o ∈ deterministic_gates env, ∀ rd, o = some rd →
      rd.1 ≠ BlockReason.attachment_skipped := by
  intro o ho rd hrd
  simp only [deterministic_gates, List.mem_cons, List.mem_singleton,
    List.not_mem_nil, or_false] at ho
  rcases ho with h | h | h | h | h | h | h <;> rw [h] at hrd <;> revert hrd <;>
    simp only [gate_kill_switch, gate_cooldown, gate_daily_limit, gate_pending_questions,
      gate_space_boundary, gate_time_of_day, gate_timing_boundaries] <;>
    repeat' split
  all_goals intro hrd2
  all_goals cases hrd2
  all_goals intro hne
  all_goals cases hne

end ProactiveScheduler

/-- C5: the proactive `can_send` evaluation checks its gates in the fixed
order kill-switch, cooldown, daily cap, pending questions, space boundary,
time-of-day, timing-boundaries/attachment-skip; it equals the ordered
short-circuit evaluation of the gate list (so the first failing gate's
reason and detail are returned and no later gate matters); a deterministic
block is independent of the random draw; and the probabilistic
attachment-skip gate fires only when every deterministic gate has passed. -/
theorem c5_gate_order_short_circuit (env : ProactiveScheduler.SchedulerEnv) :
    (ProactiveScheduler.can_send env =
      match (ProactiveScheduler.gate_results env).findSome? id with
      | some rd => (false, some rd.1, some rd.2)
      | none => (true, none, none))
    ∧ (∀ r' : ℚ, (ProactiveScheduler.can_send env).1 = false →
        (ProactiveScheduler.can_send env).2.1 ≠
          some ProactiveScheduler.BlockReason.attachment_skipped →
        ProactiveScheduler.can_send { env with rand := r' } =
          ProactiveScheduler.can_send env)
    ∧ ((ProactiveScheduler.can_send env).2.1 =
          some ProactiveScheduler.BlockReason.attachment_skipped →
        ProactiveScheduler.gate_kill_switch env = none ∧
        ProactiveScheduler.gate_cooldown env = none ∧
        ProactiveScheduler.gate_daily_limit env = none ∧
        ProactiveScheduler.gate_pending_questions env = none ∧
        ProactiveScheduler.gate_space_boundary env = none ∧
        ProactiveScheduler.gate_time_of_day env = none ∧
        ProactiveScheduler.gate_timing_boundaries env = none) := by
  refine ⟨ProactiveScheduler.can_send_eq_first_fail env, ?_, ?_⟩
  · intro r' hblk hrs
    rw [ProactiveScheduler.can_send_eq_first_fail env,
      ProactiveScheduler.gate_results_eq_det_append, List.findSome?_append] at hblk hrs ⊢
    rw [ProactiveScheduler.can_send_eq_first_fail { env with rand := r' },
      ProactiveScheduler.gate_results_eq_det_append ({ env with rand := r' }),
      List.findSome?_append, ProactiveScheduler.deterministic_gates_rand]
    cases hd : (ProactiveScheduler.deterministic_gates env).findSome? id with
    | some rd => rfl
    | none =>
      rw [hd] at hblk hrs
      simp only [Option.or] at hblk hrs ⊢
      cases hs : ProactiveScheduler.gate_attachment_skip env with
      | none => rw [hs] at hblk; simp [List.findSome?_cons] at hblk
      | some rd =>
        rw [hs] at hrs
        have := ProactiveScheduler.gate_attachment_skip_reason env rd hs
        rw [this] at hrs
        simp [List.findSome?_cons] at hrs
  · intro h
    rw [ProactiveScheduler.can_send_eq_first_fail env,
      ProactiveScheduler.gate_results_eq_det_append, List.findSome?_append] at h
    cases hd : (ProactiveScheduler.deterministic_gates env).findSome? id with
    | some rd =>
      rw [hd] at h
      simp only [Option.or, Option.some_inj] at h
      exact absurd h
        (ProactiveScheduler.deterministic_gates_not_skip env _ (findSome?_id_mem hd) rd rfl)
    | none =>
      have hall := findSome?_id_eq_none hd
      refine ⟨?_, ?_, ?_, ?_, ?_, ?_, ?_⟩ <;>
        exact hall _ (by simp [ProactiveScheduler.deterministic_gates])

/-- A scheduler environment whose daily cap is exhausted while every other
gate (cooldown included) passes: free tier, secure attachment, one proactive
send already made today. -/
def envDaily : ProactiveScheduler.SchedulerEnv :=
  { flags := { proactiveEnabled := true, toxicExEnabled := true }
  , uid := "u"
  , user := some { tier := some "free", proactiveCountToday := 1 }
  , settings := some { attachmentStyle := "secure", archetype := "golden_retriever" }
  , lastProactiveAt := none
  , now := 100
  , localHour := 14
  , rand := 0
  , boundaries := []
  , messages := [] }

/-- Witness for C5 at a concrete environment blocked on the daily cap: the
block is unchanged under a different random draw. -/
theorem c5_witness :
    ProactiveScheduler.can_send { envDaily with rand := 1/3 } =
      ProactiveScheduler.can_send envDaily :=
  (c5_gate_order_short_circuit envDaily).2.1 (1/3) (by decide) (by decide)

namespace ProactiveScheduler

/-- No gate after the daily-limit gate ever reports `daily_limit_reached`. -/
theorem later_gates_not_daily (env : SchedulerEnv) :
    ∀ o ∈ [ gate_pending_questions env, gate_space_boundary env, gate_time_of_day env
          , gate_timing_boundaries env, gate_attachment_skip env ],
      ∀ rd, o = some rd → rd.1 ≠ BlockReason.daily_limit_reached := by
  intro o ho rd hrd
  simp only [List.mem_cons, List.mem_singleton, List.not_mem_nil, or_false] at ho
  rcases ho with h | h | h | h | h <;> rw [h] at hrd <;> revert hrd <;>
    simp only [gate_pending_questions, gate_space_boundary, gate_time_of_day,
      gate_timing_boundaries, gate_attachment_skip] <;>
    repeat' split
  all_goals intro hrd2
  all_goals cases hrd2
  all_goals intro hne
  all_goals cases hne

end ProactiveScheduler

open ProactiveScheduler in
/-- C9: with the kill switches off, the user present, and the cooldown gate
passing, the daily-cap gate blocks exactly when the day's proactive count has
reached `min(tierDailyCap, attachmentDailyCap)`, and in that case `can_send`
returns the daily-limit block (cooldown having already passed). -/
theorem c9_daily_cap (env : SchedulerEnv) (user : UserRow)
    (hu : env.user = some user)
    (hpe : env.flags.proactiveEnabled = true)
    (htx : (archetypeOf env == "toxic_ex" && !env.flags.toxicExEnabled) = false)
    (hcool : ∀ last, env.lastProactiveAt = some last →
      (modifierOf env).cooldownHours ≤ env.now - last) :
    ((can_send env).2.1 = some BlockReason.daily_limit_reached ↔
      min (proactiveLimit (tierOf user)) (modifierOf env).dailyMax ≤ user.proactiveCountToday)
    ∧ (min (proactiveLimit (tierOf user)) (modifierOf env).dailyMax ≤ user.proactiveCountToday →
      can_send env = (false, some BlockReason.daily_limit_reached,
        some (CanSendDetail.daily_limit user.proactiveCountToday
          (min (proactiveLimit (tierOf user)) (modifierOf env).dailyMax)))) := by
  have hks : gate_kill_switch env = none := by simp [gate_kill_switch, hpe, hu, htx]
  have hgc : gate_cooldown env = none := by
    cases hlast : env.lastProactiveAt with
    | none => simp [gate_cooldown, hlast]
    | some last => simp [gate_cooldown, hlast, not_lt.mpr (hcool last hlast)]
  have he := can_send_eq_first_fail env
  rw [gate_results_eq_det_append, List.findSome?_append] at he
  by_cases hdm : min (proactiveLimit (tierOf user)) (modifierOf env).dailyMax ≤
      user.proactiveCountToday
  · have hdl : gate_daily_limit env = some (.daily_limit_reached,
        .daily_limit user.proactiveCountToday
          (min (proactiveLimit (tierOf user)) (modifierOf env).dailyMax)) := by
      simp [gate_daily_limit, hu, hdm]
    rw [show (deterministic_gates env).findSome? id =
        some (BlockReason.daily_limit_reached,
          CanSendDetail.daily_limit user.proactiveCountToday
            (min (proactiveLimit (tierOf user)) (modifierOf env).dailyMax)) from by
      simp [deterministic_gates, List.findSome?_cons, hks, hgc, hdl]] at he
    simp only [Option.or] at he
    rw [he]
    exact ⟨by simp [hdm], fun _ => rfl⟩
  · have hdl : gate_daily_limit env = none := by simp [gate_daily_limit, hu, hdm]
    constructor
    · constructor
      · intro hr
        exfalso
        rw [can_send_eq_first_fail env, gate_results_eq_det_append,
          List.findSome?_append] at hr
        rw [show (deterministic_gates env).findSome? id =
            ([gate_pending_questions env, gate_space_boundary env, gate_time_of_day env,
              gate_timing_boundaries env] : List _).findSome? id from by
          simp [deterministic_gates, List.findSome?_cons, hks, hgc, hdl]] at hr
        cases hfs : ([gate_pending_questions env, gate_space_boundary env,
            gate_time_of_day env, gate_timing_boundaries env] : List _).findSome? id with
        | some rd =>
          rw [hfs] at hr
          simp only [Option.or, Option.some_inj] at hr
          have hmem := findSome?_id_mem hfs
          refine later_gates_not_daily env _ ?_ rd rfl hr
          simp only [List.mem_cons, List.mem_singleton, List.not_mem_nil, or_false] at hmem ⊢
          tauto
        | none =>
          rw [hfs] at hr
          simp only [Option.or] at hr
          cases hsk : gate_attachment_skip env with
          | none => rw [hsk] at hr; simp [List.findSome?_cons] at hr
          | some rd =>
            rw [hsk] at hr
            rw [gate_attachment_skip_reason env rd hsk] at hr
            simp [List.findSome?_cons] at hr
      · intro hr; exact absurd hr hdm
    · intro hr; exact absurd hr hdm

open ProactiveScheduler in
/-- Witness for C9: free tier, cap `min(1, 3) = 1`, one send already made
today, cooldown elapsed (no previous proactive log at all): the daily-cap
gate blocks. -/
theorem c9_witness :
    can_send envDaily = (false, some BlockReason.daily_limit_reached,
      some (CanSendDetail.daily_limit 1 1)) :=
  (c9_daily_cap envDaily { tier := some "free", proactiveCountToday := 1 }
    rfl rfl rfl (fun _ h => by cases h)).2 (by decide)

namespace BoundaryManager

/-- The scan invariant of the `pick_later` fold: the result is an element of
the scanned list (or the seed), no scanned element is newer, and the seed is
not newer either. -/
theorem foldl_pick_later (l : List UserBoundary) :
    ∀ acc, match l.foldl pick_later acc with
    | none => l = [] ∧ acc = none
    | some b => (b ∈ l ∨ acc = some b) ∧ (∀ x ∈ l, x.createdAt ≤ b.createdAt) ∧
        (∀ a, acc = some a → a.createdAt ≤ b.createdAt) := by
  induction l with
  | nil => intro acc; cases acc <;> simp
  | cons x t ih =>
    intro acc
    rw [List.foldl_cons]
    have h := ih (pick_later acc x)
    cases hres : t.foldl pick_later (pick_later acc x) with
    | none =>
      rw [hres] at h
      exfalso
      obtain ⟨-, h2⟩ := h
      cases acc with
      | none => simp [pick_later] at h2
      | some a =>
        simp only [pick_later] at h2
        split at h2 <;> cases h2
    | some b =>
      rw [hres] at h
      obtain ⟨hmem, hall, hacc⟩ := h
      have hstep : (pick_later acc x = some x ∧ (∀ a, acc = some a → a.createdAt ≤ x.createdAt)) ∨
          (pick_later acc x = acc ∧ ∃ a, acc = some a ∧ x.createdAt ≤ a.createdAt) := by
        cases acc with
        | none => exact Or.inl ⟨rfl, by simp⟩
        | some a =>
          simp only [pick_later]
          by_cases hgt : x.createdAt > a.createdAt
          · exact Or.inl ⟨by rw [if_pos hgt], fun a' ha' => by
              cases ha'; exact le_of_lt hgt⟩
          · exact Or.inr ⟨by rw [if_neg hgt], a, rfl, not_lt.mp hgt⟩
      constructor
      · rcases hmem with hm | hm
        · exact Or.inl (List.mem_cons_of_mem _ hm)
        · rcases hstep with ⟨he, -⟩ | ⟨he, -⟩
          · rw [he] at hm
            exact Or.inl (List.mem_cons.mpr (Or.inl (Option.some_inj.mp hm.symm)))
          · exact Or.inr (he.symm.trans hm)
      refine ⟨?_, ?_⟩
      · intro y hy
        rcases List.mem_cons.mp hy with h1 | h1
        · subst h1
          rcases hstep with ⟨he, -⟩ | ⟨he, a, ha, hxa⟩
          · exact hacc y he
          · exact le_trans hxa (hacc a (he.trans ha))
        · exact hall y h1
      · intro a ha
        rcases hstep with ⟨he, hle⟩ | ⟨he, a', ha', -⟩
        · exact le_trans (hle a ha) (hacc x he)
        · exact hacc a (he.trans ha)

/-- `latest_space_boundary` is `none` exactly when the user has no active
space boundary. -/
theorem latest_space_boundary_eq_none (uid : String) (st : Store) :
    latest_space_boundary uid st = none ↔ ∀ b ∈ st, is_space_row uid b = false := by
  unfold latest_space_boundary
  have h := foldl_pick_later (st.filter (is_space_row uid)) none
  constructor
  · intro he
    rw [he] at h
    obtain ⟨h1, -⟩ := h
    intro b hb
    by_contra hrow
    have : b ∈ st.filter (is_space_row uid) :=
      List.mem_filter.mpr ⟨hb, by revert hrow; cases is_space_row uid b <;> simp⟩
    rw [h1] at this
    cases this
  · intro hnone
    cases he : (st.filter (is_space_row uid)).foldl pick_later none with
    | none => rfl
    | some b =>
      rw [he] at h
      obtain ⟨hm | hm, -, -⟩ := h
      · have := List.mem_filter.mp hm
        rw [hnone b this.1] at this
        cases this.2
      · cases hm

/-- `latest_space_boundary`, when defined, is an active space-boundary row of
the store, and no active space-boundary row of the store is newer. -/
theorem latest_space_boundary_spec (uid : String) (st : Store) (b : UserBoundary)
    (h : latest_space_boundary uid st = some b) :
    b ∈ st ∧ is_space_row uid b = true ∧
      ∀ b' ∈ st, is_space_row uid b' = true → b'.createdAt ≤ b.createdAt := by
  have hinv := foldl_pick_later (st.filter (is_space_row uid)) none
  unfold latest_space_boundary at h
  rw [h] at hinv
  obtain ⟨hm | hm, hall, -⟩ := hinv
  · have hbf := List.mem_filter.mp hm
    exact ⟨hbf.1, hbf.2, fun b' hb' hrow =>
      hall b' (List.mem_filter.mpr ⟨hb', hrow⟩)⟩
  · cases hm

end BoundaryManager

open BoundaryManager in
/-- C4: `check_space_allows_proactive` returns `(true, no_boundary)` when the
user has no active space boundary; `(true, user_initiated)` when the most
recent active space boundary carries a `user_initiated_after` stamp;
`(true, cooldown_expired)` when the stamp is unset and at least 24 hours
(`SPACE_BOUNDARY_COOLDOWN_HOURS`) have passed since that boundary's
creation; and otherwise blocks with `hard_stop r` where `r` is the positive
number of hours remaining (formatted `hard_stop_<H>h_remaining` in the
source). -/
theorem c4_check_space_reasons (now : ℚ) (uid : String) (st : Store) :
    ((∀ b ∈ st, is_space_row uid b = false) →
      check_space_allows_proactive now uid st = (true, .no_boundary))
    ∧ (∀ b t, latest_space_boundary uid st = some b → b.userInitiatedAfter = some t →
      check_space_allows_proactive now uid st = (true, .user_initiated))
    ∧ (∀ b, latest_space_boundary uid st = some b → b.userInitiatedAfter = none →
      SPACE_BOUNDARY_COOLDOWN_HOURS ≤ now - b.createdAt →
      check_space_allows_proactive now uid st = (true, .cooldown_expired))
    ∧ (∀ b, latest_space_boundary uid st = some b → b.userInitiatedAfter = none →
      now - b.createdAt < SPACE_BOUNDARY_COOLDOWN_HOURS →
      check_space_allows_proactive now uid st =
        (false, .hard_stop (SPACE_BOUNDARY_COOLDOWN_HOURS - (now - b.createdAt))) ∧
        0 < SPACE_BOUNDARY_COOLDOWN_HOURS - (now - b.createdAt)) := by
  refine ⟨?_, ?_, ?_, ?_⟩
  · intro hempty
    have hnone : latest_space_boundary uid st = none :=
      (latest_space_boundary_eq_none uid st).mpr hempty
    simp [check_space_allows_proactive, hnone]
  · intro b t hb ht
    simp [check_space_allows_proactive, hb, ht]
  · intro b hb hn hc
    simp [check_space_allows_proactive, hb, hn, hc]
  · intro b hb hn hc
    refine ⟨?_, by linarith⟩
    simp [check_space_allows_proactive, hb, hn, not_le.mpr hc]

/-- Witness for C4, exercising the hard-stop case one hour after a space
boundary was created. -/
theorem c4_witness :
    BoundaryManager.check_space_allows_proactive 1 "u"
        [{ userId := "u", boundaryType := "behavior", boundaryValue := "reduce_messages"
         , active := true, createdAt := 0, userInitiatedAfter := none }] =
      (false, .hard_stop (BoundaryManager.SPACE_BOUNDARY_COOLDOWN_HOURS - (1 - 0))) ∧
    (0:ℚ) < BoundaryManager.SPACE_BOUNDARY_COOLDOWN_HOURS - (1 - 0) :=
  (c4_check_space_reasons 1 "u"
      [{ userId := "u", boundaryType := "behavior", boundaryValue := "reduce_messages"
       , active := true, createdAt := 0, userInitiatedAfter := none }]).2.2.2
    { userId := "u", boundaryType := "behavior", boundaryValue := "reduce_messages"
    , active := true, createdAt := 0, userInitiatedAfter := none }
    (by decide) rfl (by norm_num [BoundaryManager.SPACE_BOUNDARY_COOLDOWN_HOURS])

namespace BoundaryManager

/-- The detection tail never edits rows: it at most appends one new row. -/
theorem detect_and_save_fst (now : ℚ) (uid msg : String) (st : Store) :
    ∃ tail, (detect_and_save now uid msg st).1 = st ++ tail := by
  cases hdet : BoundaryDetector.detect_boundary msg with
  | none => exact ⟨[], by simp [detect_and_save, hdet]⟩
  | some tv =>
    by_cases hdup : duplicate_exists uid tv.1.toStr tv.2 st = true
    · exact ⟨[], by simp [detect_and_save, hdet, hdup]⟩
    · refine ⟨[{ userId := uid, boundaryType := tv.1.toStr, boundaryValue := tv.2
               , active := true, createdAt := now, userInitiatedAfter := none }], ?_⟩
      simp [detect_and_save, hdet, hdup]

/-- Whatever branch `process_message` takes, the resulting store is the
marked store, possibly deactivated row-wise, with at most one appended row:
existing rows are never deleted or reordered. -/
theorem process_message_fst_shape (now : ℚ) (uid msg : String) (st : Store) :
    ∃ (useDeact : Bool) (tail : List UserBoundary),
      (process_message now uid msg st).1 =
        (if useDeact then (mark_user_initiated now uid st).map (deact_row uid)
         else mark_user_initiated now uid st) ++ tail := by
  by_cases hr : BoundaryDetector.detect_retraction msg = some "space"
  · by_cases hd : (mark_user_initiated now uid st).any (deact_hit uid) = true
    · exact ⟨true, [], by
        simp [process_message, hr, hd, deactivate_space_boundary]⟩
    · obtain ⟨tail, ht⟩ := detect_and_save_fst now uid msg
        ((mark_user_initiated now uid st).map (deact_row uid))
      exact ⟨true, tail, by
        simpa [process_message, hr, hd, deactivate_space_boundary] using ht⟩
  · obtain ⟨tail, ht⟩ := detect_and_save_fst now uid msg (mark_user_initiated now uid st)
    exact ⟨false, tail, by simpa [process_message, hr] using ht⟩

/-- Row deactivation does not touch the `user_initiated_after` stamp. -/
theorem deact_row_stamp (uid : String) (b : UserBoundary) :
    (deact_row uid b).userInitiatedAfter = b.userInitiatedAfter := by
  unfold deact_row
  split <;> rfl

/-- `mark_row` on an active space row: an unset stamp becomes `now`, an
existing stamp is kept. -/
theorem mark_row_stamp (now : ℚ) (uid : String) (b : UserBoundary)
    (hrow : is_space_row uid b = true) :
    (mark_row now uid b).userInitiatedAfter =
      some (match b.userInitiatedAfter with | none => now | some t => t) := by
  simp only [is_space_row, Bool.and_eq_true] at hrow
  obtain ⟨⟨⟨h1, h2⟩, h3⟩, h4⟩ := hrow
  cases hst : b.userInitiatedAfter with
  | none => simp [mark_row, h1, h2, h3, h4, hst]
  | some t => simp [mark_row, h1, h2, h3, h4, hst]

/-- Processing any message stamps `user_initiated_after` on every active
space-boundary row, exactly once: an unset stamp becomes `now`, a set stamp
is never overwritten.  (Row `i` of the store stays row `i`.) -/
theorem process_message_stamps (now : ℚ) (uid msg : String) (st : Store) :
    ∀ i (h : i < st.length),
      is_space_row uid (st.get ⟨i, h⟩) = true →
      ∃ b', ((process_message now uid msg st).1).get? i = some b' ∧
        b'.userInitiatedAfter =
          some (match (st.get ⟨i, h⟩).userInitiatedAfter with
                | none => now | some t => t) := by
  intro i h hrow
  obtain ⟨useDeact, tail, hshape⟩ := process_message_fst_shape now uid msg st
  rw [hshape]
  cases useDeact with
  | false =>
    rw [List.get?_append (by simp [mark_user_initiated]; omega)]
    refine ⟨mark_row now uid (st.get ⟨i, h⟩), ?_, mark_row_stamp now uid _ hrow⟩
    simp [mark_user_initiated, List.get?_map, List.get?_eq_get h]
    exact ⟨_, List.getElem?_eq_getElem h, rfl⟩
  | true =>
    rw [List.get?_append (by simp [mark_user_initiated]; omega)]
    refine ⟨deact_row uid (mark_row now uid (st.get ⟨i, h⟩)), ?_, ?_⟩
    · simp [mark_user_initiated, List.get?_map, List.get?_eq_get h]
      exact ⟨_, List.getElem?_eq_getElem h, rfl⟩
    · rw [deact_row_stamp]
      exact mark_row_stamp now uid _ hrow

end BoundaryManager

/-- An active space boundary created at hour 0, stamp unset. -/
def bSpace0 : UserBoundary :=
  { userId := "u", boundaryType := "behavior", boundaryValue := "reduce_messages"
  , active := true, createdAt := 0, userInitiatedAfter := none }

/-- Counterexample to C6 as stated: with `bSpace0` active, processing the
subsequent message "too many messages" at hour 2 does stamp the old
boundary, but also creates a new frequency space boundary; at hour 3 the
check consults the newer, unstamped boundary and blocks with a hard stop —
not `(allowed=true, user_initiated)` as the claim's "from then on" asserts. -/
theorem c6_counterexample :
    (BoundaryManager.process_message 2 "u" "too many messages" [bSpace0]).1 =
      [{ userId := "u", boundaryType := "behavior", boundaryValue := "reduce_messages"
       , active := true, createdAt := 0, userInitiatedAfter := some 2 }
      ,{ userId := "u", boundaryType := "frequency", boundaryValue := "reduce_messages"
       , active := true, createdAt := 2, userInitiatedAfter := none }] ∧
    BoundaryManager.check_space_allows_proactive 3 "u"
      (BoundaryManager.process_message 2 "u" "too many messages" [bSpace0]).1 =
      (false, .hard_stop 23) := by
  have hst : (BoundaryManager.process_message 2 "u" "too many messages" [bSpace0]).1 =
      [{ userId := "u", boundaryType := "behavior", boundaryValue := "reduce_messages"
       , active := true, createdAt := 0, userInitiatedAfter := some 2 }
      ,{ userId := "u", boundaryType := "frequency", boundaryValue := "reduce_messages"
       , active := true, createdAt := 2, userInitiatedAfter := none }] := by decide
  refine ⟨hst, ?_⟩
  rw [hst]
  have hlatest : BoundaryManager.latest_space_boundary "u"
      [{ userId := "u", boundaryType := "behavior", boundaryValue := "reduce_messages"
       , active := true, createdAt := 0, userInitiatedAfter := some 2 }
      ,{ userId := "u", boundaryType := "frequency", boundaryValue := "reduce_messages"
       , active := true, createdAt := 2, userInitiatedAfter := none }] =
      some { userId := "u", boundaryType := "frequency", boundaryValue := "reduce_messages"
           , active := true, createdAt := 2, userInitiatedAfter := none } := by decide
  rw [BoundaryManager.check_space_allows_proactive, hlatest]
  norm_num [BoundaryManager.SPACE_BOUNDARY_COOLDOWN_HOURS]

open BoundaryManager in
/-- C6 (amended): processing any subsequent message stamps
`user_initiated_after` on every active space-boundary row — exactly once, an
existing stamp is never overwritten — and whenever the most recent active
space boundary carries the stamp, `check_space_allows_proactive` returns
`(true, user_initiated)` no matter how little time has elapsed.  (Per the
counterexample, the verdict is tied to the current most recent active space
boundary: a message that itself sets a new space boundary or retracts the
old ones changes which boundary governs.) -/
theorem c6_user_initiated_stamp (now : ℚ) (uid msg : String) (st : Store) :
    (∀ i (h : i < st.length),
      is_space_row uid (st.get ⟨i, h⟩) = true →
      ∃ b', ((process_message now uid msg st).1).get? i = some b' ∧
        b'.userInitiatedAfter =
          some (match (st.get ⟨i, h⟩).userInitiatedAfter with
                | none => now | some t => t))
    ∧ (∀ (now' : ℚ) b t, latest_space_boundary uid st = some b →
        b.userInitiatedAfter = some t →
        check_space_allows_proactive now' uid st = (true, .user_initiated)) := by
  refine ⟨process_message_stamps now uid msg st, ?_⟩
  intro now' b t hb ht
  simp [check_space_allows_proactive, hb, ht]

/-- Witness for C6: `bSpace0` is stamped by the plain message "hello" at
hour 2, and at hour 3 — long before the 24-hour mark — the proactive check
allows with `user_initiated`. -/
theorem c6_witness :
    (∃ b', ((BoundaryManager.process_message 2 "u" "hello" [bSpace0]).1).get? 0 =
        some b' ∧ b'.userInitiatedAfter = some 2) ∧
    BoundaryManager.check_space_allows_proactive 3 "u"
      (BoundaryManager.process_message 2 "u" "hello" [bSpace0]).1 =
      (true, .user_initiated) := by
  constructor
  · exact (c6_user_initiated_stamp 2 "u" "hello" [bSpace0]).1 0 (by decide) (by decide)
  · exact (c6_user_initiated_stamp 3 "u" "hello"
      (BoundaryManager.process_message 2 "u" "hello" [bSpace0]).1).2 3
      { userId := "u", boundaryType := "behavior", boundaryValue := "reduce_messages"
      , active := true, createdAt := 0, userInitiatedAfter := some 2 } 2
      (by decide) (by decide)

namespace BoundaryManager

/-- The number of active boundary rows with a given key. -/
def active_key_count (uid ty v : String) (st : Store) : Nat :=
  (st.filter (key_pred uid ty v)).length

/-- The invariant of the claim: at most one active boundary per
`(userId, type, value)`. -/
def at_most_one_active (st : Store) : Prop :=
  ∀ uid ty v, active_key_count uid ty v st ≤ 1

/-- Stamping a row does not change its key predicate. -/
theorem key_pred_mark_row (uid ty v : String) (now : ℚ) (uid' : String) (b : UserBoundary) :
    key_pred uid ty v (mark_row now uid' b) = key_pred uid ty v b := by
  unfold mark_row
  split <;> rfl

/-- Deactivating a row can only turn its key predicate off. -/
theorem key_pred_deact_row (uid ty v : String) (uid' : String) (b : UserBoundary)
    (h : key_pred uid ty v (deact_row uid' b) = true) : key_pred uid ty v b = true := by
  revert h
  unfold deact_row
  split
  · unfold key_pred
    simp
  · exact id

/-- A row-wise key-preserving map preserves the active key count. -/
theorem active_key_count_map_eq (uid ty v : String) (f : UserBoundary → UserBoundary)
    (hf : ∀ b, key_pred uid ty v (f b) = key_pred uid ty v b) (st : Store) :
    active_key_count uid ty v (st.map f) = active_key_count uid ty v st := by
  induction st with
  | nil => rfl
  | cons b t ih =>
    simp only [active_key_count, List.map_cons, List.filter_cons] at ih ⊢
    rw [hf b]
    cases key_pred uid ty v b <;> simp [ih]

/-- A row-wise map that only switches the key predicate off cannot increase
the active key count. -/
theorem active_key_count_map_le (uid ty v : String) (f : UserBoundary → UserBoundary)
    (hf : ∀ b, key_pred uid ty v (f b) = true → key_pred uid ty v b = true) (st : Store) :
    active_key_count uid ty v (st.map f) ≤ active_key_count uid ty v st := by
  induction st with
  | nil => exact le_refl _
  | cons b t ih =>
    simp only [active_key_count, List.map_cons, List.filter_cons] at ih ⊢
    cases hb : key_pred uid ty v (f b) with
    | true => rw [hf b hb]; simpa using ih
    | false => cases key_pred uid ty v b <;> simp <;> omega

/-- Appending one row adds its own key-predicate value to the count. -/
theorem active_key_count_append_one (uid ty v : String) (st : Store) (x : UserBoundary) :
    active_key_count uid ty v (st ++ [x]) =
      active_key_count uid ty v st + (if key_pred uid ty v x then 1 else 0) := by
  simp only [active_key_count, List.filter_append, List.length_append, List.filter_cons,
    List.filter_nil]
  cases key_pred uid ty v x <;> simp

/-- A failed duplicate check means the key has no active row. -/
theorem duplicate_exists_false_count (uid ty v : String) (st : Store)
    (h : duplicate_exists uid ty v st = false) : active_key_count uid ty v st = 0 := by
  unfold duplicate_exists at h
  unfold active_key_count
  rw [List.length_eq_zero, List.filter_eq_nil]
  intro b hb
  have hall := List.any_eq_true.not.mp (by rw [h]; simp)
  push_neg at hall
  exact hall b hb

/-- The fresh row of a creation carries exactly the created key. -/
theorem key_pred_new_row (uid ty v uid' ty' v' : String) (now : ℚ) :
    key_pred uid' ty' v'
      { userId := uid, boundaryType := ty, boundaryValue := v
      , active := true, createdAt := now, userInitiatedAfter := none } = true ↔
      uid' = uid ∧ ty' = ty ∧ v' = v := by
  unfold key_pred
  simp only [Bool.and_eq_true, beq_iff_eq]
  constructor
  · rintro ⟨⟨⟨h1, h2⟩, h3⟩, -⟩
    exact ⟨h1.symm, h2.symm, h3.symm⟩
  · rintro ⟨h1, h2, h3⟩
    subst h1; subst h2; subst h3
    exact ⟨⟨⟨rfl, rfl⟩, rfl⟩, trivial⟩

/-- Appending a fresh, duplicate-checked row preserves the invariant. -/
theorem at_most_one_active_append (st : Store) (uid ty v : String) (now : ℚ)
    (hinv : at_most_one_active st)
    (hdup : duplicate_exists uid ty v st = false) :
    at_most_one_active (st ++
      [{ userId := uid, boundaryType := ty, boundaryValue := v
       , active := true, createdAt := now, userInitiatedAfter := none }]) := by
  intro uid' ty' v'
  rw [active_key_count_append_one]
  by_cases hk : key_pred uid' ty' v'
      { userId := uid, boundaryType := ty, boundaryValue := v
      , active := true, createdAt := now, userInitiatedAfter := none } = true
  · obtain ⟨h1, h2, h3⟩ := (key_pred_new_row uid ty v uid' ty' v' now).mp hk
    subst h1; subst h2; subst h3
    rw [duplicate_exists_false_count uid' ty' v' st hdup, hk]
    simp
  · rw [(Bool.not_eq_true _).mp hk]
    simpa using hinv uid' ty' v'

/-- `detect_and_save` either leaves the store unchanged or appends one fresh
row that passed the duplicate check. -/
theorem detect_and_save_cases (now : ℚ) (uid msg : String) (st : Store) :
    (detect_and_save now uid msg st).1 = st ∨
    ∃ ty value, duplicate_exists uid ty value st = false ∧
      (detect_and_save now uid msg st).1 = st ++
        [{ userId := uid, boundaryType := ty, boundaryValue := value
         , active := true, createdAt := now, userInitiatedAfter := none }] := by
  cases hdet : BoundaryDetector.detect_boundary msg with
  | none => exact Or.inl (by simp [detect_and_save, hdet])
  | some tv =>
    by_cases hdup : duplicate_exists uid tv.1.toStr tv.2 st = true
    · exact Or.inl (by simp [detect_and_save, hdet, hdup])
    · exact Or.inr ⟨tv.1.toStr, tv.2, by simpa using hdup, by simp [detect_and_save, hdet, hdup]⟩

/-- `detect_and_save` preserves the invariant. -/
theorem detect_and_save_preserves (now : ℚ) (uid msg : String) (st : Store)
    (hinv : at_most_one_active st) :
    at_most_one_active (detect_and_save now uid msg st).1 := by
  rcases detect_and_save_cases now uid msg st with h | ⟨ty, v, hdup, h⟩
  · rwa [h]
  · rw [h]; exact at_most_one_active_append st uid ty v now hinv hdup

/-- `process_message` preserves the invariant. -/
theorem process_message_preserves (now : ℚ) (uid msg : String) (st : Store)
    (hinv : at_most_one_active st) :
    at_most_one_active (process_message now uid msg st).1 := by
  have hmark : at_most_one_active (mark_user_initiated now uid st) := by
    intro uid' ty' v'
    unfold mark_user_initiated
    rw [active_key_count_map_eq uid' ty' v' _ (key_pred_mark_row uid' ty' v' now uid)]
    exact hinv uid' ty' v'
  have hdeact : at_most_one_active
      ((mark_user_initiated now uid st).map (deact_row uid)) := by
    intro uid' ty' v'
    exact le_trans
      (active_key_count_map_le uid' ty' v' _ (key_pred_deact_row uid' ty' v' uid) _)
      (hmark uid' ty' v')
  simp only [process_message]
  by_cases hr : BoundaryDetector.detect_retraction msg = some "space"
  · rw [if_pos hr]
    by_cases hd : (deactivate_space_boundary uid (mark_user_initiated now uid st)).2 = true
    · rw [if_pos hd]
      exact hdeact
    · rw [if_neg hd]
      exact detect_and_save_preserves now uid msg _ hdeact
  · rw [if_neg hr]
    exact detect_and_save_preserves now uid msg _ hmark

/-- `create_boundary` preserves the invariant. -/
theorem create_boundary_preserves (now : ℚ) (uid ty value : String) (st : Store)
    (hinv : at_most_one_active st) :
    at_most_one_active (create_boundary now uid ty value st).1 := by
  unfold create_boundary
  by_cases hdup : duplicate_exists uid ty value st = true
  · simpa [hdup] using hinv
  · have hd : duplicate_exists uid ty value st = false := by simpa using hdup
    simp only [hd, Bool.false_eq_true, if_false]
    exact at_most_one_active_append st uid ty value now hinv hd

/-- A mutation of the boundary store considered by the idempotency claim. -/
inductive BoundaryOp
  | proc (now : ℚ) (uid msg : String)
  | create (now : ℚ) (uid ty value : String)

/-- Apply one operation to the store. -/
def applyOp (st : Store) : BoundaryOp → Store
  | .proc now uid msg => (process_message now uid msg st).1
  | .create now uid ty value => (create_boundary now uid ty value st).1

end BoundaryManager

open BoundaryManager in
/-- C7: boundary creation is idempotent per `(userId, type, value)`: starting
from an empty store, any sequence of `process_message` / `create_boundary`
calls leaves at most one active boundary per key; in particular processing
the same space-triggering phrase twice yields exactly one active
behavior/frequency `reduce_messages` row. -/
theorem c7_boundary_idempotent :
    (∀ ops : List BoundaryOp, at_most_one_active (ops.foldl applyOp []))
    ∧ (((process_message 1 "u" "leave me alone"
          (process_message 0 "u" "leave me alone" []).1).1).filter
        (key_pred "u" "behavior" "reduce_messages")).length = 1
    ∧ (((process_message 1 "u" "leave me alone"
          (process_message 0 "u" "leave me alone" []).1).1).filter
        (is_space_row "u")).length = 1 := by
  refine ⟨?_, by decide, by decide⟩
  have hstep : ∀ (ops : List BoundaryOp) (st : Store), at_most_one_active st →
      at_most_one_active (ops.foldl applyOp st) := by
    intro ops
    induction ops with
    | nil => intro st h; exact h
    | cons op t ih =>
      intro st h
      rw [List.foldl_cons]
      refine ih _ ?_
      cases op with
      | proc now uid msg => exact process_message_preserves now uid msg st h
      | create now uid ty value => exact create_boundary_preserves now uid ty value st h
  intro ops
  exact hstep ops [] (fun uid ty v => by simp [active_key_count])

namespace BoundaryManager

/-- Stamping never changes which rows the deactivation hits. -/
theorem deact_hit_mark_row (uid : String) (now : ℚ) (uid' : String) (b : UserBoundary) :
    deact_hit uid (mark_row now uid' b) = deact_hit uid b := by
  unfold mark_row
  split <;> rfl

/-- After row deactivation, no row is hit any more. -/
theorem deact_hit_deact_row (uid : String) (b : UserBoundary) :
    deact_hit uid (deact_row uid b) = false := by
  unfold deact_row
  by_cases h : deact_hit uid b = true
  · rw [if_pos h]
    unfold deact_hit
    simp
  · rw [if_neg h]
    simpa using h

end BoundaryManager

open BoundaryManager in
/-- C10: `detect_retraction` fires on any message whose lowercased text
contains "back", "here", "ready" or "sorry" anywhere as a substring; and
because `process_message` checks retraction before boundary detection, such
a message — when the user has at least one active behavior/frequency
boundary — deactivates all of them, reports a retraction event, and records
no new boundary (the store length is unchanged), even if the text itself
matches a space pattern (e.g. "back off"). -/
theorem c10_retraction_substring (msg : String) (now : ℚ) (uid : String) (st : Store) :
    ((isSubstr "back".data (lowerStrip msg) = true ∨
      isSubstr "here".data (lowerStrip msg) = true ∨
      isSubstr "ready".data (lowerStrip msg) = true ∨
      isSubstr "sorry".data (lowerStrip msg) = true) →
      BoundaryDetector.detect_retraction msg = some "space")
    ∧ (BoundaryDetector.detect_retraction msg = some "space" →
      st.any (deact_hit uid) = true →
      (process_message now uid msg st).2 =
        some { action := "boundary_retracted", type := "behavior", value := "space"
             , isSpaceBoundary := true, hint := "[BOUNDARY_RETRACTED: space]" } ∧
      (∀ b' ∈ (process_message now uid msg st).1, deact_hit uid b' = false) ∧
      (process_message now uid msg st).1.length = st.length) := by
  constructor
  · intro h
    have hne : ¬ msg = "" := by
      intro he
      rw [he] at h
      revert h
      decide
    unfold BoundaryDetector.detect_retraction
    rw [if_neg hne, if_pos]
    rcases h with h | h | h | h
    · exact List.any_eq_true.mpr ⟨["back"],
        by simp [BoundaryDetector.SPACE_RETRACTION_PATTERNS], by simp [reSearchAlts, h]⟩
    · exact List.any_eq_true.mpr ⟨["here"],
        by simp [BoundaryDetector.SPACE_RETRACTION_PATTERNS], by simp [reSearchAlts, h]⟩
    · exact List.any_eq_true.mpr ⟨["ready"],
        by simp [BoundaryDetector.SPACE_RETRACTION_PATTERNS], by simp [reSearchAlts, h]⟩
    · exact List.any_eq_true.mpr ⟨["sorry"],
        by simp [BoundaryDetector.SPACE_RETRACTION_PATTERNS], by simp [reSearchAlts, h]⟩
  · intro hr hact
    have hmark : (mark_user_initiated now uid st).any (deact_hit uid) = true := by
      unfold mark_user_initiated
      rw [List.any_map]
      have : (deact_hit uid) ∘ (mark_row now uid) = deact_hit uid := by
        funext b
        exact deact_hit_mark_row uid now uid b
      rw [this]
      exact hact
    have hd2 : (deactivate_space_boundary uid (mark_user_initiated now uid st)).2 = true :=
      hmark
    simp only [process_message, hr, if_true, hd2]
    refine ⟨by trivial, ?_, ?_⟩
    · intro b' hb'
      simp only [deactivate_space_boundary] at hb'
      obtain ⟨b, -, hbe⟩ := List.mem_map.mp hb'
      rw [← hbe]
      exact deact_hit_deact_row uid b
    · simp [deactivate_space_boundary, mark_user_initiated]

/-- Witness for C10: "back off" (itself a space pattern!) is read as a
retraction: it deactivates the active space boundary and creates nothing. -/
theorem c10_witness :
    (BoundaryManager.process_message 2 "u" "back off" [bSpace0]).2 =
      some { action := "boundary_retracted", type := "behavior", value := "space"
           , isSpaceBoundary := true, hint := "[BOUNDARY_RETRACTED: space]" } ∧
    (∀ b' ∈ (BoundaryManager.process_message 2 "u" "back off" [bSpace0]).1,
      BoundaryManager.deact_hit "u" b' = false) ∧
    (BoundaryManager.process_message 2 "u" "back off" [bSpace0]).1.length = 1 :=
  (c10_retraction_substring "back off" 2 "u" [bSpace0]).2 (by decide) (by decide)

namespace MessageHandler

/-- The loop makes at most one generation call per remaining iteration. -/
theorem generate_safe_loop_calls_le (st : Store) (uid : String) (env : GenEnv) :
    ∀ (r attempt calls : Nat) (ctx : Context),
      (generate_safe_loop st uid env r attempt calls ctx).2 ≤ calls + r := by
  intro r
  induction r with
  | zero => intro attempt calls ctx; simp [generate_safe_loop]
  | succ r ih =>
    intro attempt calls ctx
    unfold generate_safe_loop
    cases env.oracle calls with
    | exn =>
      simp only []
      split
      all_goals first
        | (refine le_trans (ih (attempt + 1) (calls + 1) _) ?_ ; omega)
        | (simp <;> omega)
    | ok response =>
      simp only []
      repeat' split
      all_goals first
        | (refine le_trans (ih (attempt + 1) (calls + 1) _) ?_ ; omega)
        | (simp <;> omega)

/-- The loop result counts at least the calls already made. -/
theorem generate_safe_loop_calls_ge (st : Store) (uid : String) (env : GenEnv) :
    ∀ (r attempt calls : Nat) (ctx : Context),
      calls ≤ (generate_safe_loop st uid env r attempt calls ctx).2 := by
  intro r
  induction r with
  | zero => intro attempt calls ctx; simp [generate_safe_loop]
  | succ r ih =>
    intro attempt calls ctx
    unfold generate_safe_loop
    cases env.oracle calls with
    | exn =>
      simp only []
      split
      all_goals first
        | (refine le_trans ?_ (ih (attempt + 1) (calls + 1) _) ; omega)
        | (simp <;> omega)
    | ok response =>
      simp only []
      repeat' split
      all_goals first
        | (refine le_trans ?_ (ih (attempt + 1) (calls + 1) _) ; omega)
        | (simp <;> omega)

/-- With an iteration remaining, the loop makes at least one call. -/
theorem generate_safe_loop_calls_succ (st : Store) (uid : String) (env : GenEnv)
    (r attempt calls : Nat) (ctx : Context) :
    calls + 1 ≤ (generate_safe_loop st uid env (r + 1) attempt calls ctx).2 := by
  unfold generate_safe_loop
  cases env.oracle calls with
  | exn =>
    simp only []
    split
    all_goals first
      | (exact generate_safe_loop_calls_ge st uid env r (attempt + 1) (calls + 1) _)
      | (simp <;> omega)
  | ok response =>
    simp only []
    repeat' split
    all_goals first
      | (exact generate_safe_loop_calls_ge st uid env r (attempt + 1) (calls + 1) _)
      | (simp <;> omega)

/-- Every fallback phrase carries a fallback marker. -/
theorem is_fallback_chooseFallback (r : Nat) :
    is_fallback (chooseFallback r) = true := by
  have h5 : r % 5 = 0 ∨ r % 5 = 1 ∨ r % 5 = 2 ∨ r % 5 = 3 ∨ r % 5 = 4 := by omega
  rcases h5 with h | h | h | h | h <;>
    simp [chooseFallback, FALLBACK_RESPONSES, h] <;> decide

/-- Any loop result that is neither fallback-flagged nor the neutral
topic-change line passed the boundary-violation check. -/
theorem generate_safe_loop_no_violation (st : Store) (uid : String) (env : GenEnv) :
    ∀ (r attempt calls : Nat) (ctx : Context),
      is_fallback (generate_safe_loop st uid env r attempt calls ctx).1 = false →
      (generate_safe_loop st uid env r attempt calls ctx).1 ≠ topicChangeLine →
      (BoundaryManager.check_message_violates uid
        (generate_safe_loop st uid env r attempt calls ctx).1 st).1 = false := by
  intro r
  induction r with
  | zero =>
    intro attempt calls ctx hfb _
    rw [generate_safe_loop] at hfb ⊢
    rw [is_fallback_chooseFallback] at hfb
    cases hfb
  | succ r ih =>
    intro attempt calls ctx hfb htc
    rw [generate_safe_loop] at hfb htc ⊢
    cases horc : env.oracle calls with
    | exn =>
      rw [horc] at hfb htc
      simp only [] at hfb htc ⊢
      split at hfb
      · rw [is_fallback_chooseFallback] at hfb; cases hfb
      · rename_i hatt
        rw [if_neg hatt] at htc ⊢
        exact ih _ _ _ hfb htc
    | ok response =>
      rw [horc] at hfb htc
      simp only [] at hfb htc ⊢
      by_cases hemp : response = ""
      · rw [if_pos hemp] at hfb htc ⊢
        exact ih _ _ _ hfb htc
      · rw [if_neg hemp] at hfb htc ⊢
        by_cases hfall : is_fallback response = true
        · rw [if_pos hfall] at hfb
          rw [hfall] at hfb; cases hfb
        · rw [if_neg hfall] at hfb htc ⊢
          by_cases hval : (!is_valid_response response) = true
          · rw [if_pos hval] at hfb htc ⊢
            exact ih _ _ _ hfb htc
          · rw [if_neg hval] at hfb htc ⊢
            by_cases hvio : (BoundaryManager.check_message_violates uid response st).1 = true
            · rw [if_pos hvio] at hfb htc ⊢
              by_cases hatt : attempt < MAX_REGENERATION_ATTEMPTS
              · rw [if_pos hatt] at hfb htc ⊢
                exact ih _ _ _ hfb htc
              · rw [if_neg hatt] at htc
                exact absurd rfl htc
            · rw [if_neg hvio] at hfb htc ⊢
              simpa using hvio

end MessageHandler

open MessageHandler in
/-- C2 (amended): the regeneration loop makes at most 3 generation calls;
and any returned text that is neither fallback-flagged (a known fallback
phrase or marker — those are accepted without the boundary check) nor the
neutral topic-change line emitted when attempts are exhausted has passed the
boundary-violation check. -/
theorem c2_regeneration_bounded (st : Store) (uid : String) (ctx : Context) (env : GenEnv) :
    (generate_safe st uid ctx env).2 ≤ 3
    ∧ (is_fallback (generate_safe st uid ctx env).1 = false →
       (generate_safe st uid ctx env).1 ≠ topicChangeLine →
       (BoundaryManager.check_message_violates uid
         (generate_safe st uid ctx env).1 st).1 = false) := by
  constructor
  · have h := generate_safe_loop_calls_le st uid env 3 0 0 ctx
    simpa [generate_safe, MAX_REGENERATION_ATTEMPTS] using h
  · exact fun h1 h2 => generate_safe_loop_no_violation st uid env 3 0 0 ctx h1 h2

/-- Counterexample to C2's "never emits flagged text": with an active topic
boundary "sorry", the generated text "sorry, that was out of line" carries
the fallback marker "sorry", so the loop accepts and returns it without the
boundary check — yet `check_message_violates` flags it. -/
theorem c2_counterexample :
    (MessageHandler.generate_safe
      [{ userId := "u", boundaryType := "topic", boundaryValue := "sorry"
       , active := true, createdAt := 0, userInitiatedAfter := none }]
      "u" { systemHint := none, distressDetected := false }
      { oracle := fun _ => .ok "sorry, that was out of line", rand := 0 }).1 =
      "sorry, that was out of line" ∧
    BoundaryManager.check_message_violates "u" "sorry, that was out of line"
      [{ userId := "u", boundaryType := "topic", boundaryValue := "sorry"
       , active := true, createdAt := 0, userInitiatedAfter := none }] =
      (true, some "sorry") := by
  exact ⟨by decide, by decide⟩

/-- Witness for C2 on a clean run: a harmless generated text is returned
within the call bound and unflagged. -/
theorem c2_witness :
    (MessageHandler.generate_safe [] "u"
      { systemHint := none, distressDetected := false }
      { oracle := fun _ => .ok "hey, how are you today?", rand := 0 }).2 ≤ 3 ∧
    (BoundaryManager.check_message_violates "u"
      (MessageHandler.generate_safe [] "u"
        { systemHint := none, distressDetected := false }
        { oracle := fun _ => .ok "hey, how are you today?", rand := 0 }).1 []).1 = false :=
  ⟨(c2_regeneration_bounded [] "u"
      { systemHint := none, distressDetected := false }
      { oracle := fun _ => .ok "hey, how are you today?", rand := 0 }).1,
   (c2_regeneration_bounded [] "u"
      { systemHint := none, distressDetected := false }
      { oracle := fun _ => .ok "hey, how are you today?", rand := 0 }).2
     (by decide) (by decide)⟩

open MessageHandler in
/-- C1 (amended): a distress-positive inbound message does not short-circuit
the reactive pipeline: boundary processing still runs, and — when it reports
no boundary event — `_process` proceeds to generation with
`distress_detected` set and the safety hint as the system hint (overriding
any boundary hint), calling the generation capability at least once.  The
fixed persona-free support response is produced only by the explicit
/support command handler. -/
theorem c1_distress_precedence (now : ℚ) (env : GenEnv) (uid msg : String)
    (st : PipelineState)
    (hdis : DistressDetector.detect msg = true)
    (hpm : (BoundaryManager.process_message now uid msg st.boundaries).2 = none) :
    ∃ out, process_core now env uid msg st = Except.ok out ∧
      out.ctxUsed = { systemHint := some distressHint, distressDetected := true } ∧
      1 ≤ out.llmCalls := by
  simp only [process_core, hpm, hdis]
  refine ⟨_, rfl, ?_, ?_⟩
  · simp
  · exact generate_safe_loop_calls_succ _ _ env 2 0 0 _

/-- Counterexample to C1 as stated: on the distress-positive message
"i want to die" the pipeline delivers the generator's own text — not the
fixed support response — and the generation capability is called once. -/
theorem c1_counterexample :
    DistressDetector.detect "i want to die" = true ∧
    (MessageHandler.handle 0
      { oracle := fun _ => .ok "thanks for telling me. want to talk about it?"
      , rand := 0 } "u" "i want to die" { boundaries := [], messages := [] }).1 =
      some "thanks for telling me. want to talk about it?" ∧
    (MessageHandler.handle 0
      { oracle := fun _ => .ok "thanks for telling me. want to talk about it?"
      , rand := 0 } "u" "i want to die" { boundaries := [], messages := [] }).2.2 = 1 ∧
    ("thanks for telling me. want to talk about it?" : String) ≠ SUPPORT_RESPONSE := by
  exact ⟨by decide, by decide, by decide, by decide⟩

/-- Witness for C1 at the distress-positive message "i want to die". -/
theorem c1_witness :
    ∃ out, MessageHandler.process_core 0
      { oracle := fun _ => .ok "thanks for telling me. want to talk about it?"
      , rand := 0 } "u" "i want to die" { boundaries := [], messages := [] } =
        Except.ok out ∧
      out.ctxUsed = { systemHint := some MessageHandler.distressHint
                    , distressDetected := true } ∧
      1 ≤ out.llmCalls :=
  c1_distress_precedence 0
    { oracle := fun _ => .ok "thanks for telling me. want to talk about it?", rand := 0 }
    "u" "i want to die" { boundaries := [], messages := [] } (by decide) (by decide)

/-- C3: the failing input "leave me alone" makes `process_message` report a
boundary event (with its hint); `_process` then evaluates
`boundary_result.type` — attribute access on the returned dict — which
raises `AttributeError`, so `handle` returns a random fallback phrase, the
generation capability is never called (0 calls), and the hint never reaches
a generation context; only the boundary row and the user turn persist. -/
theorem c3_boundary_event_crashes :
    (BoundaryManager.process_message 0 "u" "leave me alone" []).2 =
      some { action := "boundary_set", type := "behavior", value := "reduce_messages"
           , isSpaceBoundary := true
           , hint := "[BOUNDARY_SET: behavior=reduce_messages]" } ∧
    MessageHandler.handle 0
      { oracle := fun _ => .ok "sure, i will give you space.", rand := 0 }
      "u" "leave me alone" { boundaries := [], messages := [] } =
      (some (chooseFallback 0),
        { boundaries :=
            [{ userId := "u", boundaryType := "behavior"
             , boundaryValue := "reduce_messages"
             , active := true, createdAt := 0, userInitiatedAfter := none }]
        , messages :=
            [{ userId := "u", role := "user", content := "leave me alone"
             , isQuestion := false, questionAnswered := false }] }, 0) := by
  exact ⟨by decide, by decide⟩

/-- `isSubstr` is exactly infix occurrence. -/
theorem isSubstr_iff_infix (p s : List Char) :
    isSubstr p s = true ↔ p <:+: s := by
  induction s with
  | nil =>
    simp only [isSubstr, List.isEmpty_iff, List.infix_nil]
  | cons c t ih =>
    simp only [isSubstr, Bool.or_eq_true, List.isPrefixOf_iff_prefix, ih,
      List.infix_cons_iff]

/-- Every character of `l` before position `none` is a non-word character
(used for the text left of a word-boundary match). -/
def lastNonWord (l : List Char) : Prop :=
  ∀ c, l.getLast? = some c → isWordChar c = false

/-- The first character of `l`, when present, is a non-word character. -/
def headNonWord (l : List Char) : Prop :=
  ∀ c, l.head? = some c → isWordChar c = false

theorem wordAtPos_append_left (pre rest : List Char) (j : Nat) (hj : j < pre.length) :
    wordAtPos (pre ++ rest) j = wordAtPos pre j := by
  unfold wordAtPos
  rw [List.get?_append hj]

theorem wordAtPos_append_right (pre rest : List Char) (k : Nat) :
    wordAtPos (pre ++ rest) (pre.length + k) = wordAtPos rest k := by
  unfold wordAtPos
  rw [List.get?_append_right (by omega)]
  have hk : pre.length + k - pre.length = k := by omega
  rw [hk]

/-- A literal whose first and last characters are word characters matches
under `\b..\b` at position `i` exactly when the text splits as
`pre ++ p ++ post` with `|pre| = i`, `pre` not ending in a word character
and `post` not starting with one. -/
theorem wbMatchAt_iff_split (p s : List Char) (i : Nat) (hi : i ≤ s.length) (hp : p ≠ [])
    (hhead : ∀ c, p.head? = some c → isWordChar c = true)
    (hlast : ∀ c, p.getLast? = some c → isWordChar c = true) :
    wbMatchAt p s i = true ↔
      ∃ pre post, pre ++ p ++ post = s ∧ pre.length = i ∧
        lastNonWord pre ∧ headNonWord post := by
  have hplen : 1 ≤ p.length := by
    cases p with
    | nil => exact absurd rfl hp
    | cons a t => simp
  constructor
  · intro hm
    unfold wbMatchAt at hm
    simp only [Bool.and_eq_true] at hm
    obtain ⟨⟨h1, h2⟩, h3⟩ := hm
    obtain ⟨post, hpost⟩ := List.isPrefixOf_iff_prefix.mp h1
    have hlenpre : (s.take i).length = i := by
      rw [List.length_take]
      omega
    have hs : s.take i ++ (p ++ post) = s := by
      rw [hpost, List.take_append_drop]
    have hswi : wordAtPos s i = true := by
      rw [← hs]
      have := wordAtPos_append_right (s.take i) (p ++ post) 0
      rw [hlenpre, Nat.add_zero] at this
      rw [this]
      unfold wordAtPos
      cases p with
      | nil => exact absurd rfl hp
      | cons a t =>
        simp only [List.cons_append, List.get?]
        exact hhead a rfl
    refine ⟨s.take i, post, by rw [List.append_assoc]; exact hs, hlenpre, ?_, ?_⟩
    · intro c hc
      unfold boundaryAt at h2
      rw [hswi] at h2
      by_cases hz : i = 0
      · subst hz
        rw [List.take_zero] at hc
        cases hc
      · rw [if_neg hz] at h2
        have hwf : wordAtPos s (i - 1) = false := by
          revert h2
          cases wordAtPos s (i - 1) <;> decide
        rw [← hs, wordAtPos_append_left _ _ _ (by omega)] at hwf
        rw [List.getLast?_eq_get?, hlenpre] at hc
        unfold wordAtPos at hwf
        rw [hc] at hwf
        exact hwf
    · intro c hc
      unfold boundaryAt at h3
      have hwl : wordAtPos s (i + p.length - 1) = true := by
        rw [← hs]
        have harith : i + p.length - 1 = (s.take i).length + (p.length - 1) := by omega
        rw [harith, wordAtPos_append_right]
        unfold wordAtPos
        have hpget : (p ++ post).get? (p.length - 1) = p.get? (p.length - 1) := by
          rw [List.get?_append (by omega)]
        rw [hpget, ← List.getLast?_eq_get?]
        cases hgl : p.getLast? with
        | none => rw [List.getLast?_eq_none_iff] at hgl; exact absurd hgl hp
        | some c2 => exact hlast c2 hgl
      rw [if_neg (by omega), hwl] at h3
      have hwr : wordAtPos s (i + p.length) = false := by
        revert h3
        cases wordAtPos s (i + p.length) <;> decide
      rw [← hs] at hwr
      have harith : i + p.length = (s.take i).length + p.length := by omega
      rw [harith, wordAtPos_append_right] at hwr
      unfold wordAtPos at hwr
      rw [List.get?_append_right (by omega)] at hwr
      have : p.length - p.length = 0 := by omega
      rw [this, List.get?_zero, hc] at hwr
      exact hwr
  · rintro ⟨pre, post, hs, hlenpre, hpre, hpost⟩
    rw [List.append_assoc] at hs
    unfold wbMatchAt
    simp only [Bool.and_eq_true]
    have hswi : wordAtPos s i = true := by
      rw [← hs, ← hlenpre]
      have := wordAtPos_append_right pre (p ++ post) 0
      rw [Nat.add_zero] at this
      rw [this]
      unfold wordAtPos
      cases p with
      | nil => exact absurd rfl hp
      | cons a t =>
        simp only [List.cons_append, List.get?]
        exact hhead a rfl
    refine ⟨⟨?_, ?_⟩, ?_⟩
    · rw [← hs, ← hlenpre, List.drop_left]
      exact List.isPrefixOf_iff_prefix.mpr ⟨post, rfl⟩
    · unfold boundaryAt
      rw [hswi]
      by_cases hz : i = 0
      · rw [if_pos hz]
        decide
      · rw [if_neg hz]
        have hpre_ne : pre ≠ [] := by
          intro he
          rw [he] at hlenpre
          simp at hlenpre
          omega
        have hwf : wordAtPos s (i - 1) = false := by
          rw [← hs, wordAtPos_append_left _ _ _ (by omega)]
          unfold wordAtPos
          have := List.getLast?_eq_get? pre
          rw [hlenpre] at this
          cases hgl : pre.getLast? with
          | none => rw [List.getLast?_eq_none_iff] at hgl; exact absurd hgl hpre_ne
          | some c =>
            rw [hgl] at this
            rw [← this]
            exact hpre c hgl
        rw [hwf]
        decide
    · unfold boundaryAt
      have hwl : wordAtPos s (i + p.length - 1) = true := by
        rw [← hs]
        have harith : i + p.length - 1 = pre.length + (p.length - 1) := by omega
        rw [harith, wordAtPos_append_right]
        unfold wordAtPos
        rw [List.get?_append (by omega), ← List.getLast?_eq_get?]
        cases hgl : p.getLast? with
        | none => rw [List.getLast?_eq_none_iff] at hgl; exact absurd hgl hp
        | some c2 => exact hlast c2 hgl
      rw [if_neg (by omega), hwl]
      have hwr : wordAtPos s (i + p.length) = false := by
        rw [← hs]
        have harith : i + p.length = pre.length + p.length := by omega
        rw [harith, wordAtPos_append_right]
        unfold wordAtPos
        rw [List.get?_append_right (by omega)]
        have h0 : p.length - p.length = 0 := by omega
        rw [h0, List.get?_zero]
        cases hh : post.head? with
        | none => rfl
        | some c => exact hpost c hh
      rw [hwr]
      decide

/-- `wbSearch` for a word-charactered literal is exactly whole-word
occurrence. -/
theorem wbSearch_iff_split (p s : List Char) (hp : p ≠ [])
    (hhead : ∀ c, p.head? = some c → isWordChar c = true)
    (hlast : ∀ c, p.getLast? = some c → isWordChar c = true) :
    wbSearch p s = true ↔
      ∃ pre post, pre ++ p ++ post = s ∧ lastNonWord pre ∧ headNonWord post := by
  unfold wbSearch
  rw [List.any_eq_true]
  constructor
  · rintro ⟨i, hmem, hm⟩
    rw [List.mem_range] at hmem
    obtain ⟨pre, post, h1, h2, h3, h4⟩ :=
      (wbMatchAt_iff_split p s i (by omega) hp hhead hlast).mp hm
    exact ⟨pre, post, h1, h3, h4⟩
  · rintro ⟨pre, post, h1, h3, h4⟩
    have hle : pre.length ≤ s.length := by
      rw [← h1]
      simp
    refine ⟨pre.length, ?_, ?_⟩
    · rw [List.mem_range]
      omega
    · exact (wbMatchAt_iff_split p s pre.length hle hp hhead hlast).mpr
        ⟨pre, post, h1, rfl, h3, h4⟩

/-- A guarded `findSome?` is `find?`. -/
theorem findSome?_guard_eq_find? {α : Type _} (p : α → Bool) (l : List α) :
    (l.findSome? fun v => if p v then some v else none) = l.find? p := by
  induction l with
  | nil => rfl
  | cons a t ih =>
    rw [List.findSome?_cons]
    cases hpa : p a <;> simp [List.find?_cons, hpa, ih]

namespace BoundaryManager

/-- `check_message_violates` returns the first active topic value that
matches, scanning in table order. -/
theorem check_message_violates_eq_find (uid message : String) (st : Store)
    (hmsg : message ≠ "") :
    check_message_violates uid message st =
      match (topic_values uid st).find?
          (fun v => value_matches v (pyLower message.data)) with
      | some v => (true, some v)
      | none => (false, none) := by
  unfold check_message_violates
  rw [if_neg hmsg, findSome?_guard_eq_find?]

end BoundaryManager

open BoundaryManager in
/-- C8: `check_message_violates` scans the user's active topic values in
table order and returns the first matching value; a value of length ≤ 4
(lowercased) matches only at whole-word occurrences — for a value with word
characters at both ends, exactly a substring occurrence with no adjacent
word character on either side — while a longer value matches by plain
case-insensitive substring containment; in particular the 3-character value
"ex" does not flag "next" but does flag "my ex is". -/
theorem c8_topic_matching (uid message : String) (st : Store) (hmsg : message ≠ "") :
    (check_message_violates uid message st =
      match (topic_values uid st).find?
          (fun v => value_matches v (pyLower message.data)) with
      | some v => (true, some v)
      | none => (false, none))
    ∧ (∀ (v : String) (ml : List Char), (pyLower v.data).length ≤ 4 →
        pyLower v.data ≠ [] →
        (∀ c, (pyLower v.data).head? = some c → isWordChar c = true) →
        (∀ c, (pyLower v.data).getLast? = some c → isWordChar c = true) →
        (value_matches v ml = true ↔
          ∃ pre post, pre ++ pyLower v.data ++ post = ml ∧
            lastNonWord pre ∧ headNonWord post))
    ∧ (∀ (v : String) (ml : List Char), 4 < (pyLower v.data).length →
        (value_matches v ml = true ↔ ∃ pre post, pre ++ pyLower v.data ++ post = ml))
    ∧ check_message_violates "u" "next"
        [{ userId := "u", boundaryType := "topic", boundaryValue := "ex"
         , active := true, createdAt := 0, userInitiatedAfter := none }] = (false, none)
    ∧ check_message_violates "u" "my ex is"
        [{ userId := "u", boundaryType := "topic", boundaryValue := "ex"
         , active := true, createdAt := 0, userInitiatedAfter := none }] =
        (true, some "ex") := by
  refine ⟨check_message_violates_eq_find uid message st hmsg, ?_, ?_, by decide, by decide⟩
  · intro v ml hlen hne hh hl
    simp only [value_matches]
    rw [if_pos hlen]
    exact wbSearch_iff_split (pyLower v.data) ml hne hh hl
  · intro v ml hlen
    simp only [value_matches]
    rw [if_neg (by omega)]
    exact isSubstr_iff_infix (pyLower v.data) ml

/-- Witness for C8 at the boundary value "ex" against "my ex is". -/
theorem c8_witness :
    BoundaryManager.check_message_violates "u" "my ex is"
        [{ userId := "u", boundaryType := "topic", boundaryValue := "ex"
         , active := true, createdAt := 0, userInitiatedAfter := none }] =
      match (BoundaryManager.topic_values "u"
            [{ userId := "u", boundaryType := "topic", boundaryValue := "ex"
             , active := true, createdAt := 0, userInitiatedAfter := none }]).find?
          (fun v => BoundaryManager.value_matches v (pyLower "my ex is".data)) with
      | some v => (true, some v)
      | none => (false, none) :=
  (c8_topic_matching "u" "my ex is"
    [{ userId := "u", boundaryType := "topic", boundaryValue := "ex"
     , active := true, createdAt := 0, userInitiatedAfter := none }] (by decide)).1

/-- Witness for C7: a concrete operation sequence (duplicate space phrases,
a manual duplicate creation and a retraction) keeps the invariant. -/
theorem c7_witness :
    BoundaryManager.at_most_one_active
      ([ BoundaryManager.BoundaryOp.proc 0 "u" "leave me alone"
       , BoundaryManager.BoundaryOp.proc 1 "u" "leave me alone"
       , BoundaryManager.BoundaryOp.create 2 "u" "topic" "my job"
       , BoundaryManager.BoundaryOp.create 3 "u" "topic" "my job"
       ].foldl BoundaryManager.applyOp []) :=
  c7_boundary_idempotent.1
    [ BoundaryManager.BoundaryOp.proc 0 "u" "leave me alone"
    , BoundaryManager.BoundaryOp.proc 1 "u" "leave me alone"
    , BoundaryManager.BoundaryOp.create 2 "u" "topic" "my job"
    , BoundaryManager.BoundaryOp.create 3 "u" "topic" "my job" ]
